import Mathlib

/-!
# Key-path validation: a shallow embedding of the Clang key-path validator plug-in

The development models the three translation units of the plug-in

* `KeyPathValidationConsumer.cpp` (the resolver `CheckKeyType` with the protocol-aware
  accessor search, and `isKVCContainer`),
* `KeyPathValidator.cpp` (the older single-file plug-in: its own `CheckKeyType`, the
  `valueForKey:` / `valueForKeyPath:` visitor and the `bindToModel:keyPath:change:` visitor),
* `FitbitFBBinderVisitor.cpp` (the `bindToModels:keyPaths:change:` visitor),

over a small model of the parts of the Clang AST the code queries.
-/

namespace KeyPathValidation

/-! ## Host model: strings, selectors, types, declarations -/

/-- An `llvm::StringRef`: the sequence of its `char`s. -/
abbrev StringRef := List Char

/-- A Clang `Selector`: its argument count and its identifier pieces. -/
structure Selector where
  NumArgs : Nat
  Names : List StringRef
  deriving DecidableEq, Repr

/-- `SelectorTable::getNullarySelector`. -/
def getNullarySelector (II : StringRef) : Selector := ⟨0, [II]⟩

/-- `SelectorTable::getUnarySelector`. -/
def getUnarySelector (II : StringRef) : Selector := ⟨1, [II]⟩

/-- `SelectorTable::getSelector(NumArgs, IIs)`. -/
def getSelector (NumArgs : Nat) (IIs : List StringRef) : Selector := ⟨NumArgs, IIs⟩

/-- The kinds of `BuiltinType` the boxing classification distinguishes. -/
inductive BuiltinKind
  | Void | Bool | Char_S | SChar | Char_U | UChar | Short | UShort | Int | UInt
  | Long | ULong | LongLong | ULongLong | Float | Double
  | LongDouble | WChar_S | WChar_U | Char16 | Char32 | Int128 | UInt128 | NullPtr
  deriving DecidableEq, Repr

/-- The base of an Objective-C object type: the builtin `id`, the builtin `Class`, or a named
interface (the name stands for the pointer to its `ObjCInterfaceDecl`). -/
inductive ObjCObjectBase
  | Id
  | Class
  | Interface (Name : StringRef)
  deriving DecidableEq, Repr

/-- A Clang `QualType`, restricted to the shapes the validator tells apart:
an Objective-C object pointer (base plus protocol qualifiers, the qualifiers named),
a builtin type (with the name of the typedef it is written through, if any, such as `BOOL`),
or a record (struct) type. -/
inductive QualType
  | ObjCObjectPointer (Base : ObjCObjectBase) (Quals : List StringRef)
  | Builtin (Kind : BuiltinKind) (Typedef : Option StringRef)
  | Record (Name : StringRef)
  deriving DecidableEq, Repr

/-- An `ObjCMethodDecl`: selector, instance/class flag and declared result type. -/
structure ObjCMethodDecl where
  Sel : Selector
  IsInstance : Bool
  ResultType : QualType
  deriving DecidableEq, Repr

/-- An `ObjCProtocolDecl`: its methods and the protocols it inherits. -/
inductive ObjCProtocolDecl
  | mk (Name : StringRef) (Methods : List ObjCMethodDecl) (Protocols : List ObjCProtocolDecl)

/-- An `ObjCInterfaceDecl`: name, the strings of its `annotate` attributes, its methods,
the protocols it adopts and its superclass (null for a root class). -/
inductive ObjCInterfaceDecl
  | mk (Name : StringRef) (Annotations : List StringRef) (Methods : List ObjCMethodDecl)
      (Protocols : List ObjCProtocolDecl) (SuperClass : Option ObjCInterfaceDecl)

/-- The name of an interface declaration. -/
def ObjCInterfaceDecl.getName : ObjCInterfaceDecl → StringRef
  | .mk Name _ _ _ _ => Name

/-- `ObjCInterfaceDecl::getSuperClass`. -/
def ObjCInterfaceDecl.getSuperClass : ObjCInterfaceDecl → Option ObjCInterfaceDecl
  | .mk _ _ _ _ SuperClass => SuperClass

/-- The annotation strings of the declaration's `AnnotateAttr` attributes, in order. -/
def ObjCInterfaceDecl.getAnnotations : ObjCInterfaceDecl → List StringRef
  | .mk _ Annotations _ _ _ => Annotations

/-- Follows the claim's words: an interface followed by its superclass ancestors, nearest
first. -/
def ObjCInterfaceDecl.selfAndAncestors : ObjCInterfaceDecl → List ObjCInterfaceDecl
  | .mk Name Annotations Methods Protocols SuperClass =>
    .mk Name Annotations Methods Protocols SuperClass ::
      (match SuperClass with
        | none => []
        | some S => S.selfAndAncestors)

/-- `ObjCContainerDecl::getMethod(Sel, isInstance)`: the first method of the list with that
selector and that instance flag. -/
def getMethod (Methods : List ObjCMethodDecl) (Sel : Selector) (IsInstance : Bool) :
    Option ObjCMethodDecl :=
  Methods.find? (fun M => decide (M.Sel = Sel) && (M.IsInstance == IsInstance))

mutual
/-- `ObjCProtocolDecl::lookupMethod(Sel, isInstance)`: the protocol's own methods, then the
protocols it inherits, depth first. -/
def ObjCProtocolDecl.lookupMethod : ObjCProtocolDecl → Selector → Bool → Option ObjCMethodDecl
  | .mk _ Methods Protocols, Sel, IsInstance =>
    match getMethod Methods Sel IsInstance with
    | some M => some M
    | none => lookupMethodInProtocols Protocols Sel IsInstance
/-- The loop over a protocol list inside the `lookupMethod` functions. -/
def lookupMethodInProtocols : List ObjCProtocolDecl → Selector → Bool → Option ObjCMethodDecl
  | [], _, _ => none
  | P :: Ps, Sel, IsInstance =>
    match P.lookupMethod Sel IsInstance with
    | some M => some M
    | none => lookupMethodInProtocols Ps Sel IsInstance
end

/-- `ObjCInterfaceDecl::lookupMethod(Sel, isInstance)`: for the class and then each superclass
in turn, the class's own methods and then the protocols it adopts (the methods of the class's
categories count among its own). -/
def ObjCInterfaceDecl.lookupMethod : ObjCInterfaceDecl → Selector → Bool → Option ObjCMethodDecl
  | .mk _ _ Methods Protocols SuperClass, Sel, IsInstance =>
    match getMethod Methods Sel IsInstance with
    | some M => some M
    | none =>
      match lookupMethodInProtocols Protocols Sel IsInstance with
      | some M => some M
      | none =>
        match SuperClass with
        | none => none
        | some S => S.lookupMethod Sel IsInstance

/-- `ObjCInterfaceDecl::lookupInstanceMethod(Sel)`, which is `lookupMethod(Sel, true)`. -/
def ObjCInterfaceDecl.lookupInstanceMethod (I : ObjCInterfaceDecl) (Sel : Selector) :
    Option ObjCMethodDecl :=
  I.lookupMethod Sel true

/-- The two kinds of `ObjCContainerDecl` the accessor search set holds. -/
inductive ObjCContainerDecl
  | Interface (D : ObjCInterfaceDecl)
  | Protocol (D : ObjCProtocolDecl)

/-- The `lookupMethod(Sel, isInstance)` of a search-set entry, whichever kind it is. -/
def ObjCContainerDecl.lookupMethod : ObjCContainerDecl → Selector → Bool → Option ObjCMethodDecl
  | .Interface D, Sel, IsInstance => D.lookupMethod Sel IsInstance
  | .Protocol D, Sel, IsInstance => D.lookupMethod Sel IsInstance

/-- The part of the `ASTContext` the validator uses: the declaration an interface type or a
protocol qualifier points to. -/
structure ASTContext where
  InterfaceDecl : StringRef → ObjCInterfaceDecl
  ProtocolDecl : StringRef → ObjCProtocolDecl

/-- `ASTContext::getObjCIdType`: the unqualified `id`. -/
def getObjCIdType : QualType := .ObjCObjectPointer .Id []

/-- `Ctx.getObjCObjectPointerType(Ctx.getObjCInterfaceType(Interface))`: the plain pointer
type `Interface *`. -/
def getObjCInterfacePointerType (Interface : StringRef) : QualType :=
  .ObjCObjectPointer (.Interface Interface) []

/-- `Type::isObjCIdType`: the builtin `id` without protocol qualifiers. -/
def QualType.isObjCIdType : QualType → Bool
  | .ObjCObjectPointer .Id [] => true
  | _ => false

/-- `Type::isObjCObjectPointerType`. -/
def QualType.isObjCObjectPointerType : QualType → Bool
  | .ObjCObjectPointer _ _ => true
  | _ => false

/-- `Type::getAs<ObjCObjectPointerType>()`: base and qualifiers of an object pointer, null
otherwise. -/
def QualType.getAsObjCObjectPointerType : QualType → Option (ObjCObjectBase × List StringRef)
  | .ObjCObjectPointer Base Quals => some (Base, Quals)
  | _ => none

/-- `Type::getAsObjCInterfacePointerType`: non-null only for a pointer to an interface type
(`Foo *`, `Foo<P> *`), null for `id`, `Class`, `id<P>` and every non-object type. -/
def QualType.getAsObjCInterfacePointerType :
    QualType → Option (ObjCObjectBase × List StringRef)
  | .ObjCObjectPointer (.Interface Name) Quals => some (.Interface Name, Quals)
  | _ => none

/-- `ObjCObjectPointerType::getInterfaceDecl`: the interface declaration of the pointee, null
for `id` and `Class`. -/
def ASTContext.getInterfaceDecl (Ctx : ASTContext) :
    ObjCObjectBase × List StringRef → Option ObjCInterfaceDecl
  | (.Interface Name, _) => some (Ctx.InterfaceDecl Name)
  | _ => none

/-- The result kinds of `NSAPI::getNSNumberFactoryMethodKind`. -/
inductive NSNumberLiteralMethodKind
  | NSNumberWithChar | NSNumberWithUnsignedChar | NSNumberWithShort | NSNumberWithUnsignedShort
  | NSNumberWithInt | NSNumberWithUnsignedInt | NSNumberWithLong | NSNumberWithUnsignedLong
  | NSNumberWithLongLong | NSNumberWithUnsignedLongLong | NSNumberWithFloat
  | NSNumberWithDouble | NSNumberWithBool | NSNumberWithInteger | NSNumberWithUnsignedInteger
  deriving DecidableEq, Repr

/-- `NSAPI::getNSNumberFactoryMethodKind`: none unless the type is a builtin type; the typedefs
`BOOL`, `NSInteger` and `NSUInteger` are recognised by name, every other type by its builtin
kind. -/
def getNSNumberFactoryMethodKind : QualType → Option NSNumberLiteralMethodKind
  | .Builtin Kind Typedef =>
    if Typedef = some "BOOL".toList then some .NSNumberWithBool
    else if Typedef = some "NSInteger".toList then some .NSNumberWithInteger
    else if Typedef = some "NSUInteger".toList then some .NSNumberWithUnsignedInteger
    else
      match Kind with
      | .Char_S | .SChar => some .NSNumberWithChar
      | .Char_U | .UChar => some .NSNumberWithUnsignedChar
      | .Short => some .NSNumberWithShort
      | .UShort => some .NSNumberWithUnsignedShort
      | .Int => some .NSNumberWithInt
      | .UInt => some .NSNumberWithUnsignedInt
      | .Long => some .NSNumberWithLong
      | .ULong => some .NSNumberWithUnsignedLong
      | .LongLong => some .NSNumberWithLongLong
      | .ULongLong => some .NSNumberWithUnsignedLongLong
      | .Float => some .NSNumberWithFloat
      | .Double => some .NSNumberWithDouble
      | .Bool => some .NSNumberWithBool
      | _ => none
  | _ => none

/-- `declaresSameEntity(D1, D2)`: false when either pointer is null, otherwise whether both
declare the same interface. -/
def declaresSameEntity (D1 D2 : Option ObjCInterfaceDecl) : Bool :=
  match D1, D2 with
  | some A, some B => decide (A.getName = B.getName)
  | _, _ => false

/-- The walk of `ObjCInterfaceDecl::isSuperClassOf` from a non-null starting class: the class
itself, then its superclasses, compared with the receiver. -/
def isSuperClassOfFrom (This : Option ObjCInterfaceDecl) : ObjCInterfaceDecl → Bool
  | .mk Name Annotations Methods Protocols SuperClass =>
    if declaresSameEntity This (some (.mk Name Annotations Methods Protocols SuperClass)) then true
    else
      match SuperClass with
      | none => false
      | some S => isSuperClassOfFrom This S

/-- `This->isSuperClassOf(I)`: whether `I` is `This` or derives from it; false for a null `I`.
The receiver is only ever compared, so a null receiver gives false. -/
def isSuperClassOf (This I : Option ObjCInterfaceDecl) : Bool :=
  match I with
  | none => false
  | some D => isSuperClassOfFrom This D

/-! ## `StringRef` operations -/

/-- `StringRef::find(char)`: index of the first occurrence, `npos` (none) when absent. -/
def find : StringRef → Char → Option Nat
  | [], _ => none
  | C :: Rest, Sep => if C = Sep then some 0 else (find Rest Sep).map (· + 1)

/-- `StringRef::split(char)`: the text before and after the first separator; the whole string
and the empty string when there is none. -/
def split (S : StringRef) (Separator : Char) : StringRef × StringRef :=
  match find S Separator with
  | none => (S, [])
  | some Idx => (S.take Idx, S.drop (Idx + 1))

/-- `StringRef::count(char)`. -/
def count (S : StringRef) (C : Char) : Nat := List.count C S

/-- `StringRef::substr(Start, N)`, with `N` none for the default `npos`. -/
def substr (S : StringRef) (Start : Nat) (N : Option Nat) : StringRef :=
  match N with
  | none => S.drop Start
  | some n => (S.drop Start).take n

/-- `StringRef::upper`: ASCII upper-casing of every character. -/
def upper (S : StringRef) : StringRef := S.map Char.toUpper

/-- The characters of the temporary `std::string` that
`("is" + Key.substr(0, 1).upper() + Key.substr(1)).str()` returns: `is` followed by the key with
its first character upper-cased. -/
def IsKeyString (Key : StringRef) : StringRef :=
  "is".toList ++ upper (substr Key 0 (some 1)) ++ substr Key 1 none

/-! ## The consumer: `isKVCContainer` and `CheckKeyType` -/

/-- The state of a `KeyPathValidationConsumer` after `cacheNSTypes`: the context, the type
cached in `NSNumberPtrType` (the pointer type `NSNumber *` of a translation unit that declares
`NSNumber`) and the four cached container interfaces (null when the name did not resolve to an
interface). `TemporaryReadable` belongs to the C++ runtime the consumer runs on: whether the
characters of a destroyed `std::string` temporary that held the given string are still what a
read through a `StringRef` to it finds. -/
structure KeyPathValidationConsumer where
  Context : ASTContext
  NSNumberPtrType : QualType
  NSDictionaryInterface : Option ObjCInterfaceDecl
  NSArrayInterface : Option ObjCInterfaceDecl
  NSSetInterface : Option ObjCInterfaceDecl
  NSOrderedSetInterface : Option ObjCInterfaceDecl
  TemporaryReadable : StringRef → Bool

/-- The variable `StringRef IsKey = ("is" + Key.substr(0, 1).upper() + Key.substr(1)).str();` of
both `CheckKeyType` bodies as the next line reads it. The `std::string` it points into is a
temporary destroyed at the end of that statement, so the read finds the characters of
`IsKeyString` only where the runtime left them in place; `none` stands for a read that finds
other bytes, which name no method of any declaration. -/
def KeyPathValidationConsumer.IsKey (C : KeyPathValidationConsumer) (Key : StringRef) :
    Option StringRef :=
  if C.TemporaryReadable (IsKeyString Key) then some (IsKeyString Key) else none

/-- `Selector IsSel = Context.Selectors.getNullarySelector(&Context.Idents.get(IsKey))`: the
nullary selector of the identifier read through `IsKey`. -/
def KeyPathValidationConsumer.IsSel (C : KeyPathValidationConsumer) (Key : StringRef) :
    Option Selector :=
  (C.IsKey Key).map getNullarySelector

/-- The accessor the two lookups of `CheckKeyType` find on a declaration of the search set for
a key: its nullary instance method named by the key and, when it has none, the one the lookup
of `IsSel` finds. -/
def KeyPathValidationConsumer.accessor (C : KeyPathValidationConsumer) (d : ObjCContainerDecl)
    (Key : StringRef) : Option ObjCMethodDecl :=
  match d.lookupMethod (getNullarySelector Key) true with
  | some Method => some Method
  | none => (C.IsSel Key).bind (fun S => d.lookupMethod S true)

/-- The attribute loop of `isKVCContainer`: walks the class and its superclasses and stops at
the first one with an `annotate("objc_kvc_container")` attribute. -/
def hasKVCContainerAnnotation : ObjCInterfaceDecl → Bool
  | .mk _ Annotations _ _ SuperClass =>
    if Annotations.any (fun A => decide (A = "objc_kvc_container".toList)) then true
    else
      match SuperClass with
      | none => false
      | some S => hasKVCContainerAnnotation S

/-- `KeyPathValidationConsumer::isKVCContainer` (the bodies in `KeyPathValidationConsumer.cpp`
and `KeyPathValidator.cpp` are the same text). -/
def KeyPathValidationConsumer.isKVCContainer (C : KeyPathValidationConsumer)
    (Ty : QualType) : Bool :=
  if Ty.isObjCIdType then true
  else
    let ObjInterface : Option ObjCInterfaceDecl :=
      match Ty.getAsObjCInterfacePointerType with
      | some ObjPointerType => C.Context.getInterfaceDecl ObjPointerType
      | none => none
    if isSuperClassOf C.NSDictionaryInterface ObjInterface ||
        isSuperClassOf C.NSArrayInterface ObjInterface ||
        isSuperClassOf C.NSSetInterface ObjInterface ||
        isSuperClassOf C.NSOrderedSetInterface ObjInterface then true
    else
      match ObjInterface with
      | none => false
      | some I => hasKVCContainerAnnotation I

/-- The search set `ContainerDecls` built by `CheckKeyType` of `KeyPathValidationConsumer.cpp`:
for an object pointer type its interface declaration, if any, followed by its protocol
qualifiers; empty for every other type. -/
def KeyPathValidationConsumer.ContainerDecls (C : KeyPathValidationConsumer)
    (ObjTypeInOut : QualType) : List ObjCContainerDecl :=
  match ObjTypeInOut.getAsObjCObjectPointerType with
  | some ObjType =>
    (match C.Context.getInterfaceDecl ObjType with
      | some Interface => [ObjCContainerDecl.Interface Interface]
      | none => []) ++
    ObjType.2.map (fun Q => ObjCContainerDecl.Protocol (C.Context.ProtocolDecl Q))
  | none => []

/-- The method search loop of `CheckKeyType` in `KeyPathValidationConsumer.cpp`: for each
declaration in turn, `lookupMethod(Sel, true)` and then `lookupMethod(IsSel, true)`, leaving the
loop at the first method found. `IsSel` is the selector read through `IsKey`; when that read
did not find the characters (`none`) its lookup finds no method. -/
def KeyPathValidationConsumer.lookupLoop (Sel : Selector) (IsSel : Option Selector) :
    List ObjCContainerDecl → Option ObjCMethodDecl
  | [] => none
  | Decl :: Rest =>
    match Decl with
    | .Protocol ProtoDecl =>
      match ProtoDecl.lookupMethod Sel true with
      | some Method => some Method
      | none =>
        match IsSel.bind (fun S => ProtoDecl.lookupMethod S true) with
        | some Method => some Method
        | none => lookupLoop Sel IsSel Rest
    | .Interface InterfaceDecl =>
      match InterfaceDecl.lookupMethod Sel true with
      | some Method => some Method
      | none =>
        match IsSel.bind (fun S => InterfaceDecl.lookupMethod S true) with
        | some Method => some Method
        | none => lookupLoop Sel IsSel Rest

/-- The boxing step shared by both `CheckKeyType` bodies: a result type that is not an object
pointer and has an `NSNumber` factory kind is replaced by the cached `NSNumber *`. -/
def KeyPathValidationConsumer.boxResultType (C : KeyPathValidationConsumer)
    (ResultType : QualType) : QualType :=
  if !ResultType.isObjCObjectPointerType then
    if (getNSNumberFactoryMethodKind ResultType).isSome then C.NSNumberPtrType
    else ResultType
  else ResultType

/-- `KeyPathValidationConsumer::CheckKeyType` of `KeyPathValidationConsumer.cpp`: the returned
flag and the value of `ObjTypeInOut` afterwards. -/
def KeyPathValidationConsumer.CheckKeyType (C : KeyPathValidationConsumer)
    (ObjTypeInOut : QualType) (Key : StringRef) : Bool × QualType :=
  if C.isKVCContainer ObjTypeInOut then (true, getObjCIdType)
  else if Key = "self".toList then (true, ObjTypeInOut)
  else
    let ContainerDecls := C.ContainerDecls ObjTypeInOut
    let Sel := getNullarySelector Key
    let IsSel := C.IsSel Key
    match KeyPathValidationConsumer.lookupLoop Sel IsSel ContainerDecls with
    | none => (false, ObjTypeInOut)
    | some Method => (true, C.boxResultType Method.ResultType)

/-- Modelled from the spec: `resolve` of §4.3, the driver that carries `current` through the
keys by calling `CheckKeyType` of `KeyPathValidationConsumer.cpp` on each, and fails at the
first index whose check is false with `current` as the failing type (the driver of that file,
`emitDiagnosticsForTypeAndMaybeReceiverAndKeyPath`, is declared in the header only). -/
def KeyPathValidationConsumer.resolveFrom (C : KeyPathValidationConsumer) :
    Nat → QualType → List StringRef → Except (Nat × QualType) QualType
  | _, current, [] => .ok current
  | i, current, Key :: Keys =>
    match C.CheckKeyType current Key with
    | (true, next) => resolveFrom C (i + 1) next Keys
    | (false, _) => .error (i, current)

/-- Modelled from the spec: `resolve(start, keys)` of §4.3, see `resolveFrom`. -/
def KeyPathValidationConsumer.resolve (C : KeyPathValidationConsumer) (start : QualType)
    (keys : List StringRef) : Except (Nat × QualType) QualType :=
  C.resolveFrom 0 start keys

/-- The ways the C++ can leave defined behaviour, and fuel exhaustion of a modelled loop. -/
inductive Fault
  | NullDereference
  | IndexOutOfBounds
  | OutOfFuel
  deriving DecidableEq, Repr

/-! ## Expressions, message sends, diagnostics -/

/-- The expression nodes the visitors tell apart; every node carries its type. -/
inductive Expr
  | ObjCStringLiteral (Ty : QualType) (Str : StringRef)
  | ObjCArrayLiteral (Ty : QualType) (Elements : List Expr)
  | ImplicitCastExpr (Ty : QualType) (SubExpr : Expr)
  | Other (Ty : QualType)

/-- `Expr::getType`. -/
def Expr.getType : Expr → QualType
  | .ObjCStringLiteral Ty _ => Ty
  | .ObjCArrayLiteral Ty _ => Ty
  | .ImplicitCastExpr Ty _ => Ty
  | .Other Ty => Ty

/-- `Expr::IgnoreImplicit`: strips the implicit nodes around an expression. -/
def Expr.IgnoreImplicit : Expr → Expr
  | .ImplicitCastExpr _ SubExpr => SubExpr.IgnoreImplicit
  | E => E

/-- An `ObjCMessageExpr`: arguments, whether it is an instance message, its selector and the
interface of the receiver when the receiver has one (`getReceiverInterface`). -/
structure ObjCMessageExpr where
  Args : List Expr
  IsInstanceMessage : Bool
  Sel : Selector
  ReceiverInterface : Option StringRef

/-- `ObjCMessageExpr::getNumArgs`. -/
def ObjCMessageExpr.getNumArgs (E : ObjCMessageExpr) : Nat := E.Args.length

/-- `ObjCMessageExpr::getArg(i)`; reading past the arguments is a fault. -/
def ObjCMessageExpr.getArg (E : ObjCMessageExpr) (i : Nat) : Except Fault Expr :=
  match E.Args[i]? with
  | some A => .ok A
  | none => .error .IndexOutOfBounds

/-- `ObjCArrayLiteral::getElement(Index)` on the element list; reading past the end is a
fault. -/
def getElement (Elements : List Expr) (Index : Nat) : Except Fault Expr :=
  match Elements[Index]? with
  | some E => .ok E
  | none => .error .IndexOutOfBounds

/-- A reported `key '%0' not found on type %1`: the key, the type whose pointee is printed, the
offset of the report location from the start of the literal, and the offset of the end of the
key range when the visitor sets one. -/
structure KeyDiagnostic where
  Key : StringRef
  ObjType : QualType
  Offset : Nat
  RangeEnd : Option Nat
  deriving DecidableEq, Repr

/-- One call `Consumer->CheckKeyType(ObjType, Key)` as a visitor makes it: the type passed in,
the key and the value of `Offset` at the call. -/
structure KeyCheck where
  ObjType : QualType
  Key : StringRef
  Offset : Nat
  deriving DecidableEq, Repr

/-- What one visit of a message expression did: the `CheckKeyType` calls, in order, and the
diagnostics reported, in order. -/
structure VisitLog where
  Checks : List KeyCheck
  Diags : List KeyDiagnostic
  deriving DecidableEq, Repr

/-- The loop `for (KeyAndPath = S.split('.'); KeyAndPath.first.size() > 0;
KeyAndPath = KeyAndPath.second.split('.')) Body(KeyAndPath.first)` over a loop state; the body
returns the new state and whether it left the loop with `break`. The first argument bounds the
number of condition tests. -/
def forEachKey {σ : Type} (Body : σ → StringRef → Except Fault (σ × Bool)) :
    Nat → StringRef × StringRef → σ → Except Fault σ
  | 0, _, _ => .error .OutOfFuel
  | fuel + 1, KeyAndPath, State =>
    if KeyAndPath.1.length > 0 then
      match Body State KeyAndPath.1 with
      | .error F => .error F
      | .ok (State', true) => .ok State'
      | .ok (State', false) => forEachKey Body fuel (split KeyAndPath.2 '.') State'
    else .ok State

/-- The keys the split loop hands to its body, in order, for the string `S`: the loop run with
a body that only records its key. -/
def keyPathKeys (S : StringRef) : Except Fault (List StringRef) :=
  forEachKey (fun Acc Key => .ok (Acc ++ [Key], false)) (S.length + 1) (split S '.') []

/-- Follows the spec's words (§4.2 `split`): the segments of the path between the `.`
characters, left to right, cut at the first zero-length segment. -/
def specSplit (path : StringRef) : List StringRef :=
  (path.splitOn '.').takeWhile (fun Token => !Token.isEmpty)

/-- Running a loop body over a list of keys in order, stopping at a `break` or a fault. -/
def runBody {σ : Type} (Body : σ → StringRef → Except Fault (σ × Bool)) :
    List StringRef → σ → Except Fault σ
  | [], State => .ok State
  | Key :: Keys, State =>
    match Body State Key with
    | .error F => .error F
    | .ok (State', true) => .ok State'
    | .ok (State', false) => runBody Body Keys State'

/-- Follows the claim's words: `Start` plus the sum over `j < i` of (length of key `j` + 1). -/
def offsetOfKey (Start : Nat) (Keys : List StringRef) (i : Nat) : Nat :=
  Start + ((Keys.take i).map (fun Key => Key.length + 1)).sum

/-- Follows the claim's words: the character index in `S` at which the `i`-th `.`-separated
segment starts: segment 0 starts at index 0 and every further segment right after the next
`.`; none when `S` has no such segment. -/
def segmentStart : StringRef → Nat → Option Nat
  | _, 0 => some 0
  | S, i + 1 =>
    match find S '.' with
    | none => none
    | some Idx => (segmentStart (S.drop (Idx + 1)) i).map (· + (Idx + 1))

end KeyPathValidation

namespace KeyPathValidator
open KeyPathValidation

/-- The method lookup block of `CheckKeyType` in `KeyPathValidator.cpp`:
`ObjInterface->lookupInstanceMethod(Sel)` and, when that finds nothing, the same with `IsSel`,
the selector read through `IsKey`. Both calls dereference `ObjInterface`. -/
def lookupAccessor (C : KeyPathValidationConsumer) (ObjInterface : Option ObjCInterfaceDecl)
    (Key : StringRef) : Except Fault (Option ObjCMethodDecl) :=
  match ObjInterface with
  | none => .error .NullDereference
  | some I =>
    match I.lookupInstanceMethod (getNullarySelector Key) with
    | some Method => .ok (some Method)
    | none => .ok ((C.IsSel Key).bind (fun IsSel => I.lookupInstanceMethod IsSel))

/-- `KeyPathValidationConsumer::CheckKeyType` of `KeyPathValidator.cpp`: the returned flag and
the value of `ObjTypeInOut` afterwards, or the fault of calling through a null `ObjInterface`. -/
def CheckKeyType (C : KeyPathValidationConsumer) (ObjTypeInOut : QualType) (Key : StringRef) :
    Except Fault (Bool × QualType) :=
  if C.isKVCContainer ObjTypeInOut then .ok (true, getObjCIdType)
  else if Key = "self".toList then .ok (true, ObjTypeInOut)
  else
    let ObjInterface : Option ObjCInterfaceDecl :=
      match ObjTypeInOut.getAsObjCInterfacePointerType with
      | some ObjPointerType => C.Context.getInterfaceDecl ObjPointerType
      | none => none
    match lookupAccessor C ObjInterface Key with
    | .error F => .error F
    | .ok none => .ok (false, ObjTypeInOut)
    | .ok (some Method) => .ok (true, C.boxResultType Method.ResultType)

/-- Modelled from the spec: `resolve` of §4.3 driven by `CheckKeyType` of
`KeyPathValidator.cpp`; a fault of a check is a fault of the resolution. -/
def resolveFrom (C : KeyPathValidationConsumer) :
    Nat → QualType → List StringRef → Except Fault (Except (Nat × QualType) QualType)
  | _, current, [] => .ok (.ok current)
  | i, current, Key :: Keys =>
    match CheckKeyType C current Key with
    | .error F => .error F
    | .ok (true, next) => resolveFrom C (i + 1) next Keys
    | .ok (false, _) => .ok (.error (i, current))

/-- Modelled from the spec: `resolve(start, keys)` of §4.3, see `resolveFrom`. -/
def resolve (C : KeyPathValidationConsumer) (start : QualType) (keys : List StringRef) :
    Except Fault (Except (Nat × QualType) QualType) :=
  resolveFrom C 0 start keys

/-! ### `ValueForKeyVisitor` -/

/-- The selectors cached by the constructor of `ValueForKeyVisitor`. -/
def VFKSelector : Selector := getUnarySelector "valueForKey".toList

/-- The `valueForKeyPath:` selector cached by the constructor of `ValueForKeyVisitor`. -/
def VFKPathSelector : Selector := getUnarySelector "valueForKeyPath".toList

/-- The body `Keys[i++] = KeyAndPath.first` of the split loop of `ValueForKeyVisitor`, on the
state `(Keys, i)`; a write at or past the end of the buffer is a fault. -/
def storeKey (State : List StringRef × Nat) (Key : StringRef) :
    Except Fault ((List StringRef × Nat) × Bool) :=
  if State.2 < State.1.length then .ok ((State.1.set State.2 Key, State.2 + 1), false)
  else .error .IndexOutOfBounds

/-- Lines 184-196 of `KeyPathValidator.cpp`: the buffer `Keys` of `KeyCount` empty strings as
allocated by `new StringRef[KeyCount]`, then filled by the split loop (path form) or by
`Keys[0] = KeyPathString`. -/
def fillKeys (path : Bool) (KeyPathString : StringRef) : Except Fault (List StringRef) :=
  let KeyCount := 1 + (if path then count KeyPathString '.' else 0)
  let Keys : List StringRef := List.replicate KeyCount []
  if path then
    match forEachKey storeKey (KeyPathString.length + 1) (split KeyPathString '.') (Keys, 0) with
    | .error F => .error F
    | .ok (Keys', _) => .ok Keys'
  else .ok (Keys.set 0 KeyPathString)

/-- The checking loop `for (size_t i = 0; i < KeyCount; i++)` of `ValueForKeyVisitor` over the
buffer entries: each entry is checked; the first invalid one is reported and ends the loop. -/
def checkKeys (C : KeyPathValidationConsumer) (path : Bool) :
    List StringRef → QualType → Nat → Except Fault VisitLog
  | [], _, _ => .ok ⟨[], []⟩
  | Key :: Keys, ObjType, Offset =>
    match CheckKeyType C ObjType Key with
    | .error F => .error F
    | .ok (Valid, ObjType') =>
      if !Valid then
        .ok ⟨[⟨ObjType, Key, Offset⟩],
          [⟨Key, ObjType', Offset, if path then some (Offset + 1) else none⟩]⟩
      else
        match checkKeys C path Keys ObjType' (Offset + (Key.length + 1)) with
        | .error F => .error F
        | .ok Log => .ok ⟨⟨ObjType, Key, Offset⟩ :: Log.Checks, Log.Diags⟩

/-- `ValueForKeyVisitor::VisitObjCMessageExpr`. -/
def ValueForKeyVisitor.VisitObjCMessageExpr (C : KeyPathValidationConsumer)
    (E : ObjCMessageExpr) : Except Fault VisitLog :=
  if E.getNumArgs != 1 || !E.IsInstanceMessage then .ok ⟨[], []⟩
  else if E.Sel != VFKSelector && E.Sel != VFKPathSelector then .ok ⟨[], []⟩
  else
    match E.getArg 0 with
    | .error F => .error F
    | .ok (.ObjCStringLiteral _ KeyPathString) =>
      let path := E.Sel == VFKPathSelector
      match fillKeys path KeyPathString with
      | .error F => .error F
      | .ok Keys =>
        let ObjType :=
          match E.ReceiverInterface with
          | some Interface => getObjCInterfacePointerType Interface
          | none => getObjCIdType
        checkKeys C path Keys ObjType (if path then 2 else 0)
    | .ok _ => .ok ⟨[], []⟩

/-! ### `FBBinderVisitor` of `KeyPathValidator.cpp` -/

/-- The `bindToModel:keyPath:change:` selector cached by the constructor of
`FBBinderVisitor`. -/
def BindSelector : Selector :=
  getSelector 3 ["bindToModel".toList, "keyPath".toList, "change".toList]

/-- The body of the key loop of `FBBinderVisitor::VisitObjCMessageExpr` on the state
`(ObjType, Offset, log so far)`: the key is checked, an invalid key is reported and leaves the
loop, a valid one advances `Offset`. -/
def bindBody (C : KeyPathValidationConsumer) (State : QualType × Nat × VisitLog)
    (Key : StringRef) : Except Fault ((QualType × Nat × VisitLog) × Bool) :=
  match CheckKeyType C State.1 Key with
  | .error F => .error F
  | .ok (Valid, ObjType') =>
    let Checks := State.2.2.Checks ++ [⟨State.1, Key, State.2.1⟩]
    if !Valid then
      .ok ((ObjType', State.2.1,
        ⟨Checks, State.2.2.Diags ++ [⟨Key, ObjType', State.2.1, some (State.2.1 + 1)⟩]⟩), true)
    else
      .ok ((ObjType', State.2.1 + (Key.length + 1), ⟨Checks, State.2.2.Diags⟩), false)

/-- `FBBinderVisitor::VisitObjCMessageExpr` of `KeyPathValidator.cpp`. -/
def FBBinderVisitor.VisitObjCMessageExpr (C : KeyPathValidationConsumer)
    (E : ObjCMessageExpr) : Except Fault VisitLog :=
  if E.getNumArgs != 3 || !E.IsInstanceMessage then .ok ⟨[], []⟩
  else if E.Sel != BindSelector then .ok ⟨[], []⟩
  else
    match E.getArg 0, E.getArg 1 with
    | .error F, _ => .error F
    | _, .error F => .error F
    | .ok ModelArg, .ok (.ObjCStringLiteral _ KeyPathString) =>
      let ModelType := ModelArg.IgnoreImplicit.getType
      match forEachKey (bindBody C) (KeyPathString.length + 1) (split KeyPathString '.')
          (ModelType, 2, ⟨[], []⟩) with
      | .error F => .error F
      | .ok State => .ok State.2.2
    | .ok _, .ok _ => .ok ⟨[], []⟩

end KeyPathValidator

namespace FitbitFBBinderVisitor
open KeyPathValidation

/-- What `FBBinderVisitor::VisitObjCMessageExpr` of `FitbitFBBinderVisitor.cpp` does to the
outside: a call of `Consumer->emitDiagnosticsForReceiverAndKeyPath(ModelExpr, KeyPathExpr)`, or
the report of the count-mismatch diagnostic citing the two array literals. -/
inductive Action
  | emitDiagnosticsForReceiverAndKeyPath (ModelExpr KeyPathExpr : Expr)
  | ReportCountMismatch (ModelsLiteral KeyPathsLiterals : Expr)

/-- The `bindToModel:keyPath:change:` selector cached by the constructor. -/
def BindSelector : Selector :=
  getSelector 3 ["bindToModel".toList, "keyPath".toList, "change".toList]

/-- The `bindToModels:keyPaths:change:` selector cached by the constructor. -/
def BindMultipleSelector : Selector :=
  getSelector 3 ["bindToModels".toList, "keyPaths".toList, "change".toList]

/-- A counting loop `for (Idx = 0; Idx < Count; ++Idx) Body(Idx)` given as the list of its
index values; the actions of the iterations are concatenated and a fault ends the loop. -/
def forIndices (Body : Nat → Except Fault (List Action)) : List Nat → Except Fault (List Action)
  | [] => .ok []
  | Idx :: Rest =>
    match Body Idx with
    | .error F => .error F
    | .ok Actions =>
      match forIndices Body Rest with
      | .error F => .error F
      | .ok More => .ok (Actions ++ More)

/-- The inner loop over `KeyPathIdx` (lines 47-51): one validation call per element of the
key-path array literal. -/
def keyPathLoop (ModelExpr : Expr) (KeyPathsLiteral : List Expr) : Except Fault (List Action) :=
  forIndices (fun KeyPathIdx =>
      match getElement KeyPathsLiteral KeyPathIdx with
      | .error F => .error F
      | .ok KeyPathExpr => .ok [Action.emitDiagnosticsForReceiverAndKeyPath ModelExpr KeyPathExpr])
    (List.range KeyPathsLiteral.length)

/-- The outer loop over `ModelIdx` (lines 41-53). -/
def modelLoop (ModelsLiteral KeyPathsLiterals : List Expr) : Except Fault (List Action) :=
  forIndices (fun ModelIdx =>
      match getElement ModelsLiteral ModelIdx, getElement KeyPathsLiterals ModelIdx with
      | .error F, _ => .error F
      | _, .error F => .error F
      | .ok ModelExpr, .ok KeyPathsExpr =>
        match KeyPathsExpr.IgnoreImplicit with
        | .ObjCArrayLiteral _ KeyPathsLiteral => keyPathLoop ModelExpr KeyPathsLiteral
        | _ => .ok [])
    (List.range ModelsLiteral.length)

/-- `FBBinderVisitor::VisitObjCMessageExpr` of `FitbitFBBinderVisitor.cpp`: the actions it
performs, in order. -/
def VisitObjCMessageExpr (E : ObjCMessageExpr) : Except Fault (List Action) :=
  if E.getNumArgs != 3 || !E.IsInstanceMessage then .ok []
  else
    match E.getArg 0, E.getArg 1 with
    | .error F, _ => .error F
    | _, .error F => .error F
    | .ok Arg0, .ok Arg1 =>
      let Single : List Action :=
        if E.Sel == BindSelector then [Action.emitDiagnosticsForReceiverAndKeyPath Arg0 Arg1]
        else []
      if E.Sel == BindMultipleSelector then
        match Arg0.IgnoreImplicit, Arg1.IgnoreImplicit with
        | .ObjCArrayLiteral T0 ModelsLiteral, .ObjCArrayLiteral T1 KeyPathsLiterals =>
          if ModelsLiteral.length == KeyPathsLiterals.length then
            match modelLoop ModelsLiteral KeyPathsLiterals with
            | .error F => .error F
            | .ok Actions => .ok (Single ++ Actions)
          else
            .ok (Single ++ [Action.ReportCountMismatch (.ObjCArrayLiteral T0 ModelsLiteral)
              (.ObjCArrayLiteral T1 KeyPathsLiterals)])
        | _, _ => .ok Single
      else .ok Single

/-- Follows the spec's words (§4.4, binder shape, multiple): each model is paired with every
element of the key-path array at the same index, in index order; a key-path element that is
not an array literal gives no pair. -/
def pairedCalls (Models KeyPaths : List Expr) : List (Expr × Expr) :=
  (List.zip Models KeyPaths).flatMap (fun MK =>
    match MK.2.IgnoreImplicit with
    | .ObjCArrayLiteral _ KeyPathsLiteral => KeyPathsLiteral.map (fun KeyPathExpr => (MK.1, KeyPathExpr))
    | _ => [])

end FitbitFBBinderVisitor

/-! ## A small translation unit used for the concrete instances -/

namespace Example
open KeyPathValidation

/-- The type `NSString *`. -/
def NSStringPtr : QualType := getObjCInterfacePointerType "NSString".toList

/-- The type `NSNumber *`. -/
def NSNumberPtr : QualType := getObjCInterfacePointerType "NSNumber".toList

/-- The typedef'd type `BOOL`. -/
def BOOLType : QualType := .Builtin .SChar (some "BOOL".toList)

/-- The struct type `CGRect`. -/
def CGRectType : QualType := .Record "CGRect".toList

/-- `@interface NSObject`. -/
def NSObject : ObjCInterfaceDecl := .mk "NSObject".toList [] [] [] none

/-- `@interface NSDictionary : NSObject`. -/
def NSDictionary : ObjCInterfaceDecl := .mk "NSDictionary".toList [] [] [] (some NSObject)

/-- `@interface NSArray : NSObject`. -/
def NSArray : ObjCInterfaceDecl := .mk "NSArray".toList [] [] [] (some NSObject)

/-- `@interface NSSet : NSObject`. -/
def NSSet : ObjCInterfaceDecl := .mk "NSSet".toList [] [] [] (some NSObject)

/-- `@interface NSOrderedSet : NSObject`. -/
def NSOrderedSet : ObjCInterfaceDecl := .mk "NSOrderedSet".toList [] [] [] (some NSObject)

/-- `__attribute__((annotate("objc_kvc_container"))) @interface Bag : NSObject`. -/
def Bag : ObjCInterfaceDecl :=
  .mk "Bag".toList ["objc_kvc_container".toList] [] [] (some NSObject)

/-- `@interface SubBag : Bag`. -/
def SubBag : ObjCInterfaceDecl := .mk "SubBag".toList [] [] [] (some Bag)

/-- `@interface SubSubBag : SubBag`. -/
def SubSubBag : ObjCInterfaceDecl := .mk "SubSubBag".toList [] [] [] (some SubBag)

/-- The method `- (NSString *)name`. -/
def nameMethod : ObjCMethodDecl := ⟨getNullarySelector "name".toList, true, NSStringPtr⟩

/-- The method `- (BOOL)isActive`. -/
def isActiveMethod : ObjCMethodDecl := ⟨getNullarySelector "isActive".toList, true, BOOLType⟩

/-- The method `- (CGRect)frame`. -/
def frameMethod : ObjCMethodDecl := ⟨getNullarySelector "frame".toList, true, CGRectType⟩

/-- `@interface Foo : NSObject` with `name`, `isActive` and `frame`. -/
def Foo : ObjCInterfaceDecl :=
  .mk "Foo".toList [] [nameMethod, isActiveMethod, frameMethod] [] (some NSObject)

/-- The method `- (BOOL)isTitle`. -/
def isTitleMethod : ObjCMethodDecl := ⟨getNullarySelector "isTitle".toList, true, BOOLType⟩

/-- The method `- (NSString *)title`. -/
def titleMethod : ObjCMethodDecl := ⟨getNullarySelector "title".toList, true, NSStringPtr⟩

/-- `@interface Page : NSObject` with `isTitle` only. -/
def Page : ObjCInterfaceDecl := .mk "Page".toList [] [isTitleMethod] [] (some NSObject)

/-- The method `- (BOOL)isEnabledForUserInput`. -/
def isEnabledForUserInputMethod : ObjCMethodDecl :=
  ⟨getNullarySelector "isEnabledForUserInput".toList, true, BOOLType⟩

/-- `@interface Widget : NSObject` with `isEnabledForUserInput` only. -/
def Widget : ObjCInterfaceDecl :=
  .mk "Widget".toList [] [isEnabledForUserInputMethod] [] (some NSObject)

/-- `@protocol Titled` with `title`. -/
def Titled : ObjCProtocolDecl := .mk "Titled".toList [titleMethod] []

/-- The declarations of the translation unit by name; an unknown name is a forward
declaration. -/
def Ctx : ASTContext where
  InterfaceDecl := fun Name =>
    if Name = "NSObject".toList then NSObject
    else if Name = "NSDictionary".toList then NSDictionary
    else if Name = "NSArray".toList then NSArray
    else if Name = "NSSet".toList then NSSet
    else if Name = "NSOrderedSet".toList then NSOrderedSet
    else if Name = "Bag".toList then Bag
    else if Name = "SubBag".toList then SubBag
    else if Name = "SubSubBag".toList then SubSubBag
    else if Name = "Foo".toList then Foo
    else if Name = "Page".toList then Page
    else if Name = "Widget".toList then Widget
    else .mk Name [] [] [] none
  ProtocolDecl := fun Name =>
    if Name = "Titled".toList then Titled else .mk Name [] []

/-- The consumer after `cacheNSTypes` on that translation unit, on a runtime where a destroyed
temporary stays readable while its characters fit the inline buffer of the string object (15
characters) and is overwritten when they were on the heap. -/
def Consumer : KeyPathValidationConsumer where
  Context := Ctx
  NSNumberPtrType := NSNumberPtr
  NSDictionaryInterface := some NSDictionary
  NSArrayInterface := some NSArray
  NSSetInterface := some NSSet
  NSOrderedSetInterface := some NSOrderedSet
  TemporaryReadable := fun S => decide (S.length ≤ 15)

/-- The type `SubSubBag *`. -/
def SubSubBagPtr : QualType := getObjCInterfacePointerType "SubSubBag".toList

/-- The type `NSArray *`. -/
def NSArrayPtr : QualType := getObjCInterfacePointerType "NSArray".toList

/-- The type `Foo *`. -/
def FooPtr : QualType := getObjCInterfacePointerType "Foo".toList

/-- The type `Widget *`. -/
def WidgetPtr : QualType := getObjCInterfacePointerType "Widget".toList

/-- The type `Page<Titled> *`. -/
def PageTitledPtr : QualType := .ObjCObjectPointer (.Interface "Page".toList) ["Titled".toList]

/-- The type `id<Titled>`. -/
def IdTitled : QualType := .ObjCObjectPointer .Id ["Titled".toList]

/-- The type `Foo<Titled> *`. -/
def FooTitledPtr : QualType := .ObjCObjectPointer (.Interface "Foo".toList) ["Titled".toList]

/-- The type of an array literal, `NSArray *`. -/
def arrayT : QualType := NSArrayPtr

/-- A string literal expression `@"..."`. -/
def str (S : String) : Expr := .ObjCStringLiteral NSStringPtr S.toList

/-- A variable of type `Foo *`. -/
def fooVar : Expr := .Other FooPtr

/-- A variable of type `Page<Titled> *`. -/
def pageVar : Expr := .Other PageTitledPtr

/-- A block expression, the `change:` argument. -/
def handler : Expr := .Other (.ObjCObjectPointer .Id [])

/-- The message `[foo valueForKeyPath:@"..."]` with `foo` of type `Foo *`. -/
def valueForKeyPathOnFoo (S : String) : ObjCMessageExpr where
  Args := [str S]
  IsInstanceMessage := true
  Sel := KeyPathValidator.VFKPathSelector
  ReceiverInterface := some "Foo".toList

/-- The message `[binder bindToModel:foo keyPath:@"..." change:handler]`. -/
def bindToModelFoo (S : String) : ObjCMessageExpr where
  Args := [fooVar, str S, handler]
  IsInstanceMessage := true
  Sel := KeyPathValidator.BindSelector
  ReceiverInterface := none

/-- The message `[binder bindToModels:@[foo, page]
keyPaths:@[@[@"bogus"], @[@"title"], @[@"name"]] change:handler]`: two models, three key-path
arrays. -/
def bindMismatched : ObjCMessageExpr where
  Args := [.ImplicitCastExpr arrayT (.ObjCArrayLiteral arrayT [fooVar, pageVar]),
    .ObjCArrayLiteral arrayT [.ObjCArrayLiteral arrayT [str "bogus"],
      .ObjCArrayLiteral arrayT [str "title"], .ObjCArrayLiteral arrayT [str "name"]],
    handler]
  IsInstanceMessage := true
  Sel := FitbitFBBinderVisitor.BindMultipleSelector
  ReceiverInterface := none

/-- The message `[binder bindToModels:@[foo, page, foo]
keyPaths:@[@[@"name", @"bogus"], @"title", @[@"frame"]] change:handler]`: three models, three
key-path elements, the middle one a string instead of an array. -/
def bindMatched : ObjCMessageExpr where
  Args := [.ObjCArrayLiteral arrayT [fooVar, pageVar, fooVar],
    .ObjCArrayLiteral arrayT [.ObjCArrayLiteral arrayT [str "name", str "bogus"],
      str "title", .ObjCArrayLiteral arrayT [str "frame"]],
    handler]
  IsInstanceMessage := true
  Sel := FitbitFBBinderVisitor.BindMultipleSelector
  ReceiverInterface := none

/-- The message `[obj valueForKeyPath:@"..."]` with `obj` of type `id`. -/
def valueForKeyPathOnId (S : String) : ObjCMessageExpr where
  Args := [str S]
  IsInstanceMessage := true
  Sel := KeyPathValidator.VFKPathSelector
  ReceiverInterface := none

/-- The message `[binder bindToModel:obj keyPath:@"..." change:handler]` with `obj` of type
`id`. -/
def bindToModelId (S : String) : ObjCMessageExpr where
  Args := [.Other getObjCIdType, str S, handler]
  IsInstanceMessage := true
  Sel := KeyPathValidator.BindSelector
  ReceiverInterface := none

end Example

/-! ## Theorems -/

namespace KeyPathValidation

theorem isKVCContainer_id (C : KeyPathValidationConsumer) :
    C.isKVCContainer getObjCIdType = true := by
  simp [KeyPathValidationConsumer.isKVCContainer, getObjCIdType, QualType.isObjCIdType]

theorem CheckKeyType_of_container (C : KeyPathValidationConsumer) (t : QualType) (k : StringRef)
    (h : C.isKVCContainer t = true) : C.CheckKeyType t k = (true, getObjCIdType) := by
  simp [KeyPathValidationConsumer.CheckKeyType, h]

theorem resolveFrom_of_container (C : KeyPathValidationConsumer) (ks : List StringRef) :
    ∀ (i : Nat) (t : QualType), C.isKVCContainer t = true → ks ≠ [] →
      C.resolveFrom i t ks = .ok getObjCIdType := by
  induction ks with
  | nil => intro i t _ h; exact absurd rfl h
  | cons k rest ih =>
    intro i t ht _
    rw [KeyPathValidationConsumer.resolveFrom, CheckKeyType_of_container C t k ht]
    cases rest with
    | nil => rfl
    | cons k2 rest2 => exact ih (i + 1) getObjCIdType (isKVCContainer_id C) (by simp)

theorem IsSel_eq (C : KeyPathValidationConsumer) (k : StringRef) :
    C.IsSel k =
      if C.TemporaryReadable (IsKeyString k) = true
        then some (getNullarySelector (IsKeyString k)) else none := by
  unfold KeyPathValidationConsumer.IsSel KeyPathValidationConsumer.IsKey
  cases C.TemporaryReadable (IsKeyString k) <;> rfl

theorem IsSel_of_readable (C : KeyPathValidationConsumer) (k : StringRef)
    (h : C.TemporaryReadable (IsKeyString k) = true) :
    C.IsSel k = some (getNullarySelector (IsKeyString k)) := by
  rw [IsSel_eq, if_pos h]

theorem lookupLoop_eq_findSome (Sel : Selector) (IsSel : Option Selector)
    (D : List ObjCContainerDecl) :
    KeyPathValidationConsumer.lookupLoop Sel IsSel D =
      D.findSome? (fun d =>
        match d.lookupMethod Sel true with
        | some Method => some Method
        | none => IsSel.bind (fun S => d.lookupMethod S true)) := by
  induction D with
  | nil => rfl
  | cons d rest ih =>
    cases d with
    | Interface I =>
      simp only [KeyPathValidationConsumer.lookupLoop, List.findSome?,
        ObjCContainerDecl.lookupMethod]
      cases h1 : I.lookupMethod Sel true with
      | some m => rfl
      | none =>
        cases h2 : IsSel.bind (fun S => I.lookupMethod S true) with
        | some m => rfl
        | none => exact ih
    | Protocol P =>
      simp only [KeyPathValidationConsumer.lookupLoop, List.findSome?,
        ObjCContainerDecl.lookupMethod]
      cases h1 : P.lookupMethod Sel true with
      | some m => rfl
      | none =>
        cases h2 : IsSel.bind (fun S => P.lookupMethod S true) with
        | some m => rfl
        | none => exact ih

theorem lookupLoop_eq_none (Sel : Selector) (IsSel : Option Selector)
    (D : List ObjCContainerDecl)
    (h : ∀ d ∈ D, d.lookupMethod Sel true = none ∧
      IsSel.bind (fun S => d.lookupMethod S true) = none) :
    KeyPathValidationConsumer.lookupLoop Sel IsSel D = none := by
  rw [lookupLoop_eq_findSome]
  induction D with
  | nil => rfl
  | cons d rest ih =>
    have hd := h d (List.mem_cons_self d rest)
    have hr := ih (fun e he => h e (List.mem_cons_of_mem d he))
    simp only [List.findSome?, hd.1, hd.2]
    exact hr

theorem not_objectPointer_of_factoryKind (T : QualType)
    (h : (getNSNumberFactoryMethodKind T).isSome = true) :
    T.isObjCObjectPointerType = false := by
  cases T with
  | ObjCObjectPointer B Q => simp [getNSNumberFactoryMethodKind] at h
  | Builtin K Td => rfl
  | Record N => rfl

theorem Validator_CheckKeyType_of_container (C : KeyPathValidationConsumer) (t : QualType)
    (k : StringRef) (h : C.isKVCContainer t = true) :
    KeyPathValidator.CheckKeyType C t k = .ok (true, getObjCIdType) := by
  simp [KeyPathValidator.CheckKeyType, h]

theorem Validator_resolveFrom_of_container (C : KeyPathValidationConsumer)
    (ks : List StringRef) :
    ∀ (i : Nat) (t : QualType), C.isKVCContainer t = true → ks ≠ [] →
      KeyPathValidator.resolveFrom C i t ks = .ok (.ok getObjCIdType) := by
  induction ks with
  | nil => intro i t _ h; exact absurd rfl h
  | cons k rest ih =>
    intro i t ht _
    rw [KeyPathValidator.resolveFrom, Validator_CheckKeyType_of_container C t k ht]
    cases rest with
    | nil => rfl
    | cons k2 rest2 => exact ih (i + 1) getObjCIdType (isKVCContainer_id C) (by simp)

/-- C1: a type for which `isKVCContainer` holds passes `CheckKeyType` with every key, the
state becomes `id`, and so does every later key: `resolve` on any non-empty key sequence
succeeds, whatever the keys are. The same holds with `CheckKeyType` of `KeyPathValidator.cpp`,
which never reaches its lookup. -/
theorem C1_container_resolves_any_keys (C : KeyPathValidationConsumer) (t : QualType)
    (ks : List StringRef) (ht : C.isKVCContainer t = true) (hks : ks ≠ []) :
    (∀ k, C.CheckKeyType t k = (true, getObjCIdType) ∧
      C.CheckKeyType getObjCIdType k = (true, getObjCIdType)) ∧
    C.resolve t ks = .ok getObjCIdType ∧
    KeyPathValidator.resolve C t ks = .ok (.ok getObjCIdType) :=
  ⟨fun k => ⟨CheckKeyType_of_container C t k ht,
      CheckKeyType_of_container C getObjCIdType k (isKVCContainer_id C)⟩,
    resolveFrom_of_container C ks 0 t ht hks,
    Validator_resolveFrom_of_container C ks 0 t ht hks⟩

/-- C1 at `SubSubBag *`, whose annotation is inherited through two superclasses, with two keys
no declaration has. -/
theorem C1_witness :
    Example.Consumer.isKVCContainer Example.SubSubBagPtr = true ∧
    Example.Consumer.resolve Example.SubSubBagPtr ["no".toList, "such key".toList] =
      .ok getObjCIdType :=
  ⟨by decide,
    (C1_container_resolves_any_keys Example.Consumer Example.SubSubBagPtr
      ["no".toList, "such key".toList] (by decide) (by decide)).2.1⟩

/-- C2 as stated fails: on the container type `NSArray *` the key `self` is accepted but the
type is replaced by `id`. -/
theorem C2_counterexample :
    Example.Consumer.CheckKeyType Example.NSArrayPtr "self".toList = (true, getObjCIdType) ∧
    KeyPathValidator.CheckKeyType Example.Consumer Example.NSArrayPtr "self".toList =
      .ok (true, getObjCIdType) ∧
    Example.Consumer.resolve Example.NSArrayPtr ["self".toList] = .ok getObjCIdType ∧
    getObjCIdType ≠ Example.NSArrayPtr :=
  ⟨by decide, rfl, rfl, by decide⟩

/-- C2 (amended): with the key `self`, `CheckKeyType` of either file returns true for every
type; it leaves the type as it was when the type is not a KVC container and sets it to `id`
when it is one. -/
theorem C2_self_key (C : KeyPathValidationConsumer) (t : QualType) :
    C.CheckKeyType t "self".toList =
      (true, if C.isKVCContainer t = true then getObjCIdType else t) ∧
    KeyPathValidator.CheckKeyType C t "self".toList =
      .ok (true, if C.isKVCContainer t = true then getObjCIdType else t) ∧
    C.resolve t ["self".toList] =
      .ok (if C.isKVCContainer t = true then getObjCIdType else t) ∧
    KeyPathValidator.resolve C t ["self".toList] =
      .ok (.ok (if C.isKVCContainer t = true then getObjCIdType else t)) := by
  by_cases h : C.isKVCContainer t = true
  · simp [KeyPathValidationConsumer.CheckKeyType, KeyPathValidator.CheckKeyType,
      KeyPathValidationConsumer.resolve, KeyPathValidationConsumer.resolveFrom,
      KeyPathValidator.resolve, KeyPathValidator.resolveFrom, h]
  · simp [KeyPathValidationConsumer.CheckKeyType, KeyPathValidator.CheckKeyType,
      KeyPathValidationConsumer.resolve, KeyPathValidationConsumer.resolveFrom,
      KeyPathValidator.resolve, KeyPathValidator.resolveFrom, h]

/-- C3: on a type that is not a container, a key other than `self` for which no declaration of
the search set has a nullary instance method of that name or of its `is` form makes
`CheckKeyType` return false with the type unchanged, so `resolve` fails at index 0 with that
type. -/
theorem C3_missing_key_fails (C : KeyPathValidationConsumer) (t : QualType) (k : StringRef)
    (ht : C.isKVCContainer t = false) (hk : k ≠ "self".toList)
    (hnone : ∀ d ∈ C.ContainerDecls t,
      d.lookupMethod (getNullarySelector k) true = none ∧
      d.lookupMethod (getNullarySelector (IsKeyString k)) true = none) :
    C.CheckKeyType t k = (false, t) ∧ C.resolve t [k] = .error (0, t) := by
  have hloop : KeyPathValidationConsumer.lookupLoop (getNullarySelector k) (C.IsSel k)
      (C.ContainerDecls t) = none := by
    apply lookupLoop_eq_none
    intro d hd
    refine ⟨(hnone d hd).1, ?_⟩
    rw [IsSel_eq]
    split
    · exact (hnone d hd).2
    · rfl
  have hcheck : C.CheckKeyType t k = (false, t) := by
    simpa [KeyPathValidationConsumer.CheckKeyType, ht, hloop] using hk
  refine ⟨hcheck, ?_⟩
  simp [KeyPathValidationConsumer.resolve, KeyPathValidationConsumer.resolveFrom, hcheck]

/-- C3 at `Foo *` with the key `missing`: `Foo` has neither `missing` nor `isMissing`. -/
theorem C3_witness :
    Example.Consumer.CheckKeyType Example.FooPtr "missing".toList = (false, Example.FooPtr) ∧
    Example.Consumer.resolve Example.FooPtr ["missing".toList] = .error (0, Example.FooPtr) :=
  C3_missing_key_fails Example.Consumer Example.FooPtr "missing".toList (by decide) (by decide)
    (by decide)

/-- Where the read through `IsKey` finds the `is` name, an interface without a method named by
the key and with a `BOOL` method of the `is` name is accepted with `NSNumber *` by both
`CheckKeyType` bodies. -/
theorem is_form_fallback_of_readable (C : KeyPathValidationConsumer) (Foo : StringRef)
    (Quals : List StringRef) (k : StringRef) (m : ObjCMethodDecl)
    (ht : C.isKVCContainer (.ObjCObjectPointer (.Interface Foo) Quals) = false)
    (hk : k ≠ "self".toList)
    (hread : C.TemporaryReadable (IsKeyString k) = true)
    (hlit : (C.Context.InterfaceDecl Foo).lookupMethod (getNullarySelector k) true = none)
    (his : (C.Context.InterfaceDecl Foo).lookupMethod (getNullarySelector (IsKeyString k)) true
      = some m)
    (hbool : getNSNumberFactoryMethodKind m.ResultType = some .NSNumberWithBool) :
    C.CheckKeyType (.ObjCObjectPointer (.Interface Foo) Quals) k = (true, C.NSNumberPtrType) ∧
    KeyPathValidator.CheckKeyType C (.ObjCObjectPointer (.Interface Foo) Quals) k
      = .ok (true, C.NSNumberPtrType) := by
  have hsome : (getNSNumberFactoryMethodKind m.ResultType).isSome = true := by simp [hbool]
  have hobj := not_objectPointer_of_factoryKind m.ResultType hsome
  have hbox : C.boxResultType m.ResultType = C.NSNumberPtrType := by
    simp [KeyPathValidationConsumer.boxResultType, hobj, hsome]
  have hsel := IsSel_of_readable C k hread
  have hk2 : ¬ k = "self".toList := hk
  constructor
  · simp only [KeyPathValidationConsumer.CheckKeyType, ht, hk2, if_false,
      KeyPathValidationConsumer.ContainerDecls, QualType.getAsObjCObjectPointerType,
      ASTContext.getInterfaceDecl, List.singleton_append,
      KeyPathValidationConsumer.lookupLoop, hlit, hsel, Option.some_bind, his, hbox,
      Bool.false_eq_true]
  · simp only [KeyPathValidator.CheckKeyType, ht, hk2, if_false,
      QualType.getAsObjCInterfacePointerType, ASTContext.getInterfaceDecl,
      KeyPathValidator.lookupAccessor, ObjCInterfaceDecl.lookupInstanceMethod, hlit, hsel,
      Option.some_bind, his, hbox, Bool.false_eq_true]

/-- C4 on the code: `Widget` is not a container, has no `enabledForUserInput` and has
`isEnabledForUserInput` returning `BOOL`. The `is` name has 21 characters; the read through
`IsKey`, made after the temporary string that held them is destroyed, does not find them, and
`CheckKeyType` of both files rejects the key and leaves `Widget *`, where the claim has
`NSNumber *`. For the short key `active` on `Foo *` the read finds `isActive` and the key is
accepted with `NSNumber *`. -/
theorem C4_is_form_read_after_destruction :
    Example.Consumer.isKVCContainer Example.WidgetPtr = false ∧
    Example.Widget.lookupMethod (getNullarySelector "enabledForUserInput".toList) true
      = none ∧
    Example.Widget.lookupMethod
        (getNullarySelector (IsKeyString "enabledForUserInput".toList)) true
      = some Example.isEnabledForUserInputMethod ∧
    getNSNumberFactoryMethodKind Example.isEnabledForUserInputMethod.ResultType
      = some .NSNumberWithBool ∧
    Example.Consumer.IsKey "enabledForUserInput".toList = none ∧
    Example.Consumer.CheckKeyType Example.WidgetPtr "enabledForUserInput".toList
      = (false, Example.WidgetPtr) ∧
    KeyPathValidator.CheckKeyType Example.Consumer Example.WidgetPtr
        "enabledForUserInput".toList
      = .ok (false, Example.WidgetPtr) ∧
    Example.Consumer.resolve Example.WidgetPtr ["enabledForUserInput".toList]
      = .error (0, Example.WidgetPtr) ∧
    Example.Consumer.IsKey "active".toList = some "isActive".toList ∧
    Example.Consumer.CheckKeyType Example.FooPtr "active".toList
      = (true, Example.NSNumberPtr) :=
  ⟨by decide, by decide, by decide, by decide, by decide, by decide, rfl, rfl, by decide,
    by decide⟩

/-- C5: when the accessor search of `CheckKeyType` finds a method for a key other than `self` on
a type that is not a container, the key is accepted and the type afterwards is the method's
result type if that is an object pointer, the cached `NSNumber *` if it is a non-object type
with an `NSNumber` factory kind, and the method's result type itself otherwise; this holds for
the search of `KeyPathValidationConsumer.cpp` and for the lookup of `KeyPathValidator.cpp`. -/
theorem C5_result_type_after_step (C : KeyPathValidationConsumer) (t : QualType) (k : StringRef)
    (m : ObjCMethodDecl) (ht : C.isKVCContainer t = false) (hk : k ≠ "self".toList) :
    (KeyPathValidationConsumer.lookupLoop (getNullarySelector k) (C.IsSel k)
        (C.ContainerDecls t) = some m →
      C.CheckKeyType t k =
        (true,
          if m.ResultType.isObjCObjectPointerType = true then m.ResultType
          else if (getNSNumberFactoryMethodKind m.ResultType).isSome = true
            then C.NSNumberPtrType
          else m.ResultType)) ∧
    (KeyPathValidator.lookupAccessor C
        (match t.getAsObjCInterfacePointerType with
          | some ObjPointerType => C.Context.getInterfaceDecl ObjPointerType
          | none => none) k = .ok (some m) →
      KeyPathValidator.CheckKeyType C t k =
        .ok (true,
          if m.ResultType.isObjCObjectPointerType = true then m.ResultType
          else if (getNSNumberFactoryMethodKind m.ResultType).isSome = true
            then C.NSNumberPtrType
          else m.ResultType)) := by
  have hk2 : ¬ k = "self".toList := hk
  have hbox : C.boxResultType m.ResultType =
      (if m.ResultType.isObjCObjectPointerType = true then m.ResultType
        else if (getNSNumberFactoryMethodKind m.ResultType).isSome = true
          then C.NSNumberPtrType
        else m.ResultType) := by
    unfold KeyPathValidationConsumer.boxResultType
    cases m.ResultType.isObjCObjectPointerType <;> simp
  constructor
  · intro hfound
    simp only [KeyPathValidationConsumer.CheckKeyType, ht, hk2, if_false, hfound, hbox,
      Bool.false_eq_true]
  · intro hfound
    simp only [KeyPathValidator.CheckKeyType, ht, hk2, if_false, hfound, hbox,
      Bool.false_eq_true]

/-- C5 at `Foo *`: `name` returns `NSString *` and the type becomes `NSString *`; `frame`
returns the struct `CGRect` and the type becomes `CGRect`, unboxed. -/
theorem C5_witness :
    Example.Consumer.CheckKeyType Example.FooPtr "name".toList = (true, Example.NSStringPtr) ∧
    KeyPathValidator.CheckKeyType Example.Consumer Example.FooPtr "frame".toList
      = .ok (true, Example.CGRectType) :=
  ⟨(C5_result_type_after_step Example.Consumer Example.FooPtr "name".toList Example.nameMethod
      (by decide) (by decide)).1 (by decide),
    (C5_result_type_after_step Example.Consumer Example.FooPtr "frame".toList
      Example.frameMethod (by decide) (by decide)).2 rfl⟩

/-- C6 as stated fails: for `Page<Titled> *` the search set is the interface `Page`, which has
`isTitle` only, followed by the protocol `Titled`, which has `title`; a declaration of the set
has the literal `title`, yet the search returns `isTitle` of `Page`, and the key resolves to
`NSNumber *` instead of the `NSString *` of `title`. -/
theorem C6_counterexample :
    (Example.Consumer.ContainerDecls Example.PageTitledPtr).findSome?
        (fun d => d.lookupMethod (getNullarySelector "title".toList) true)
      = some Example.titleMethod ∧
    Example.Consumer.IsSel "title".toList = some (getNullarySelector "isTitle".toList) ∧
    KeyPathValidationConsumer.lookupLoop (getNullarySelector "title".toList)
        (Example.Consumer.IsSel "title".toList)
        (Example.Consumer.ContainerDecls Example.PageTitledPtr)
      = some Example.isTitleMethod ∧
    Example.isTitleMethod ≠ Example.titleMethod ∧
    Example.Consumer.CheckKeyType Example.PageTitledPtr "title".toList
      = (true, Example.NSNumberPtr) := by
  refine ⟨by decide, by decide, by decide, by decide, by decide⟩

/-- C6 (amended): for every search set `D` and key `name`, the accessor search run with the
selector of `name` and the selector read through `IsKey` returns what the first declaration of
`D`, in order, yields on which one of the two lookups finds a method: that declaration's match
of the literal name when it has one, otherwise its match of the selector read through `IsKey`;
it returns nothing exactly when both lookups find nothing on every declaration. Where the read
through `IsKey` finds the characters of `is` followed by `name` with its first letter
upper-cased, the second lookup is the lookup of that name. -/
theorem C6_accessor_search_order (C : KeyPathValidationConsumer) (name : StringRef)
    (D : List ObjCContainerDecl) :
    KeyPathValidationConsumer.lookupLoop (getNullarySelector name) (C.IsSel name) D =
      D.findSome? (fun d =>
        match d.lookupMethod (getNullarySelector name) true with
        | some Method => some Method
        | none => (C.IsSel name).bind (fun IsSel => d.lookupMethod IsSel true)) ∧
    (KeyPathValidationConsumer.lookupLoop (getNullarySelector name) (C.IsSel name) D = none ↔
      ∀ d ∈ D, d.lookupMethod (getNullarySelector name) true = none ∧
        (C.IsSel name).bind (fun IsSel => d.lookupMethod IsSel true) = none) ∧
    (C.TemporaryReadable (IsKeyString name) = true →
      KeyPathValidationConsumer.lookupLoop (getNullarySelector name) (C.IsSel name) D =
        D.findSome? (fun d =>
          match d.lookupMethod (getNullarySelector name) true with
          | some Method => some Method
          | none => d.lookupMethod (getNullarySelector (IsKeyString name)) true)) := by
  refine ⟨lookupLoop_eq_findSome _ _ D, ?_, ?_⟩
  · rw [lookupLoop_eq_findSome, List.findSome?_eq_none_iff]
    constructor
    · intro h d hd
      have := h d hd
      cases h1 : d.lookupMethod (getNullarySelector name) true with
      | some m => simp [h1] at this
      | none => simpa [h1] using this
    · intro h d hd
      obtain ⟨h1, h2⟩ := h d hd
      simp only [h1, h2]
  · intro hread
    rw [lookupLoop_eq_findSome, IsSel_of_readable C name hread]
    rfl

/-- C6 (amended) at `Page<Titled> *` and key `title`: the read through `IsKey` finds `isTitle`,
and the search is the first per-declaration match of `title`, else `isTitle`, which is `isTitle`
of `Page`. -/
theorem C6_witness :
    Example.Consumer.TemporaryReadable (IsKeyString "title".toList) = true ∧
    KeyPathValidationConsumer.lookupLoop (getNullarySelector "title".toList)
        (Example.Consumer.IsSel "title".toList)
        (Example.Consumer.ContainerDecls Example.PageTitledPtr) =
      (Example.Consumer.ContainerDecls Example.PageTitledPtr).findSome? (fun d =>
        match d.lookupMethod (getNullarySelector "title".toList) true with
        | some Method => some Method
        | none => d.lookupMethod (getNullarySelector (IsKeyString "title".toList)) true) :=
  ⟨by decide,
    (C6_accessor_search_order Example.Consumer "title".toList
      (Example.Consumer.ContainerDecls Example.PageTitledPtr)).2.2 (by decide)⟩

theorem splitOn_of_find_none (c : Char) (S : StringRef) (h : find S c = none) :
    S.splitOn c = [S] := by
  induction S with
  | nil => rfl
  | cons x xs ih =>
    unfold find at h
    by_cases hx : x = c
    · simp [hx] at h
    · simp only [hx, if_false] at h
      have hxs : find xs c = none := by
        cases hf : find xs c with
        | none => rfl
        | some i => simp [hf] at h
      have := ih hxs
      simp only [List.splitOn] at this ⊢
      rw [List.splitOnP_cons]
      simp [hx, this]

theorem splitOn_of_find_some (c : Char) (S : StringRef) :
    ∀ i, find S c = some i →
      S.splitOn c = S.take i :: (S.drop (i + 1)).splitOn c ∧
      (S.drop (i + 1)).length < S.length := by
  induction S with
  | nil => intro i h; simp [find] at h
  | cons x xs ih =>
    intro i h
    unfold find at h
    by_cases hx : x = c
    · simp only [hx, if_true, Option.some.injEq] at h
      subst h
      simp only [List.splitOn]
      rw [List.splitOnP_cons]
      simp [hx]
    · simp only [hx, if_false] at h
      cases hf : find xs c with
      | none => simp [hf] at h
      | some j =>
        simp only [hf, Option.map_some', Option.some.injEq] at h
        subst h
        obtain ⟨h1, h2⟩ := ih j hf
        simp only [List.splitOn] at h1 ⊢
        rw [List.splitOnP_cons]
        refine ⟨?_, ?_⟩
        · simp [hx, h1]
        · simp only [List.drop_succ_cons, List.length_cons]
          omega

theorem specSplit_of_find_none (S : StringRef) (h : find S '.' = none) :
    specSplit S = if S = [] then [] else [S] := by
  unfold specSplit
  rw [splitOn_of_find_none '.' S h]
  cases S <;> simp [List.takeWhile]

theorem specSplit_of_find_some (S : StringRef) (i : Nat) (h : find S '.' = some i) :
    specSplit S = if S.take i = [] then [] else S.take i :: specSplit (S.drop (i + 1)) := by
  unfold specSplit
  rw [(splitOn_of_find_some '.' S i h).1, List.takeWhile_cons]
  cases hS : S.take i <;> simp

theorem forEachKey_eq_runBody {σ : Type} (Body : σ → StringRef → Except Fault (σ × Bool)) :
    ∀ (n : Nat) (S : StringRef) (fuel : Nat), S.length ≤ n → S.length < fuel →
      ∀ State : σ, forEachKey Body fuel (split S '.') State = runBody Body (specSplit S) State := by
  intro n
  induction n with
  | zero =>
    intro S fuel hn hf State
    have hS : S = [] := List.length_eq_zero.mp (Nat.le_zero.mp hn)
    subst hS
    obtain ⟨f, rfl⟩ : ∃ f, fuel = f + 1 := ⟨fuel - 1, by omega⟩
    rfl
  | succ n ih =>
    intro S fuel hn hf State
    obtain ⟨f, rfl⟩ : ∃ f, fuel = f + 1 := ⟨fuel - 1, by omega⟩
    cases hfind : find S '.' with
    | none =>
      rw [specSplit_of_find_none S hfind]
      have hsplit : split S '.' = (S, []) := by simp [split, hfind]
      rw [hsplit]
      by_cases hS : S = []
      · subst hS; rfl
      · have hlen : 0 < S.length := List.length_pos.mpr hS
        obtain ⟨f2, rfl⟩ : ∃ f2, f = f2 + 1 := ⟨f - 1, by omega⟩
        simp only [forEachKey, hlen, if_true, hS, if_false, runBody, gt_iff_lt]
        cases hB : Body State S with
        | error F => rfl
        | ok r =>
          obtain ⟨s', b⟩ := r
          cases b
          · simp [split, find]
          · rfl
    | some i =>
      rw [specSplit_of_find_some S i hfind]
      have hsplit : split S '.' = (S.take i, S.drop (i + 1)) := by simp [split, hfind]
      have hlt := (splitOn_of_find_some '.' S i hfind).2
      rw [hsplit]
      by_cases hA : S.take i = []
      · simp [forEachKey, hA, runBody]
      · have hlen : 0 < (S.take i).length := List.length_pos.mpr hA
        simp only [forEachKey, hlen, if_true, hA, if_false, runBody, gt_iff_lt]
        cases hB : Body State (S.take i) with
        | error F => rfl
        | ok r =>
          obtain ⟨s', b⟩ := r
          cases b
          · simp only []
            exact ih (S.drop (i + 1)) f (by omega) (by omega) s'
          · rfl

theorem keyPathKeys_eq (S : StringRef) : keyPathKeys S = .ok (specSplit S) := by
  unfold keyPathKeys
  rw [forEachKey_eq_runBody _ S.length S (S.length + 1) le_rfl (Nat.lt_succ_self _)]
  have : ∀ (L Acc : List StringRef),
      runBody (fun Acc Key => (.ok (Acc ++ [Key], false) : Except Fault _)) L Acc = .ok (Acc ++ L) := by
    intro L
    induction L with
    | nil => intro Acc; simp [runBody]
    | cons k ks ih => intro Acc; simp [runBody, ih]
  simpa using this (specSplit S) []

theorem not_mem_of_find_none (c : Char) (S : StringRef) (h : find S c = none) : c ∉ S := by
  induction S with
  | nil => simp
  | cons x xs ih =>
    unfold find at h
    by_cases hx : x = c
    · simp [hx] at h
    · simp only [hx, if_false] at h
      have hxs : find xs c = none := by
        cases hf : find xs c with
        | none => rfl
        | some i => simp [hf] at h
      simp only [List.mem_cons, not_or]
      exact ⟨fun hc => hx hc.symm, ih hxs⟩

theorem not_mem_take_of_find_some (c : Char) (S : StringRef) :
    ∀ i, find S c = some i → c ∉ S.take i := by
  induction S with
  | nil => intro i h; simp [find] at h
  | cons x xs ih =>
    intro i h
    unfold find at h
    by_cases hx : x = c
    · simp only [hx, if_true, Option.some.injEq] at h
      subst h
      simp
    · simp only [hx, if_false] at h
      cases hf : find xs c with
      | none => simp [hf] at h
      | some j =>
        simp only [hf, Option.map_some', Option.some.injEq] at h
        subst h
        simp only [List.take_succ_cons, List.mem_cons, not_or]
        exact ⟨fun hc => hx hc.symm, ih j hf⟩

theorem specSplit_tokens (n : Nat) :
    ∀ S : StringRef, S.length ≤ n → ∀ T ∈ specSplit S, T ≠ [] ∧ '.' ∉ T := by
  induction n with
  | zero =>
    intro S hn T hT
    have hS : S = [] := List.length_eq_zero.mp (Nat.le_zero.mp hn)
    subst hS
    simp [specSplit, List.splitOn, List.splitOnP_nil, List.takeWhile] at hT
  | succ n ih =>
    intro S hn T hT
    cases hfind : find S '.' with
    | none =>
      rw [specSplit_of_find_none S hfind] at hT
      by_cases hS : S = []
      · simp [hS] at hT
      · simp only [hS, if_false, List.mem_singleton] at hT
        subst hT
        exact ⟨hS, not_mem_of_find_none '.' T hfind⟩
    | some i =>
      rw [specSplit_of_find_some S i hfind] at hT
      have hlt := (splitOn_of_find_some '.' S i hfind).2
      by_cases hA : S.take i = []
      · simp [hA] at hT
      · simp only [hA, if_false, List.mem_cons] at hT
        rcases hT with hT | hT
        · subst hT
          exact ⟨hA, not_mem_take_of_find_some '.' S i hfind⟩
        · exact ih (S.drop (i + 1)) (by omega) T hT

/-- C7: the split loop hands its body exactly the keys of `specSplit`, in order: the segments of
the string between the `.` characters up to, not including, the first empty segment. This holds
for the loop with any body (the storing body of `ValueForKeyVisitor` and the checking body of
`FBBinderVisitor` alike); every key is non-empty and has no `.`; `a.b.c` gives `a`, `b`, `c`;
`a..b` gives `a`; the empty string and a string starting with `.` give no key. -/
theorem C7_split_loop_keys :
    (∀ S : StringRef, keyPathKeys S = .ok (specSplit S)) ∧
    (∀ (σ : Type) (Body : σ → StringRef → Except Fault (σ × Bool)) (S : StringRef) (State : σ),
      forEachKey Body (S.length + 1) (split S '.') State = runBody Body (specSplit S) State) ∧
    (∀ S : StringRef,
      (specSplit S).all (fun T => decide (T ≠ []) && decide ('.' ∉ T)) = true) ∧
    keyPathKeys "a.b.c".toList = .ok ["a".toList, "b".toList, "c".toList] ∧
    keyPathKeys "a..b".toList = .ok ["a".toList] ∧
    keyPathKeys [] = .ok [] ∧
    (∀ S : StringRef, keyPathKeys ('.' :: S) = .ok []) := by
  refine ⟨keyPathKeys_eq, ?_, ?_, rfl, rfl, rfl, ?_⟩
  · intro σ Body S State
    exact forEachKey_eq_runBody Body S.length S (S.length + 1) le_rfl (Nat.lt_succ_self _) State
  · intro S
    rw [List.all_eq_true]
    intro T hT
    have := specSplit_tokens S.length S le_rfl T hT
    simp [this.1, this.2]
  · intro S
    rw [keyPathKeys_eq]
    have hfind : find ('.' :: S) '.' = some 0 := by simp [find]
    rw [specSplit_of_find_some _ 0 hfind]
    simp

theorem isSuperClassOfFrom_iff (This : Option ObjCInterfaceDecl) :
    ∀ I : ObjCInterfaceDecl, isSuperClassOfFrom This I = true ↔
      ∃ A ∈ I.selfAndAncestors, ∃ K, This = some K ∧ K.getName = A.getName
  | .mk N A M P none => by
    cases This <;>
      simp [isSuperClassOfFrom, ObjCInterfaceDecl.selfAndAncestors, declaresSameEntity]
  | .mk N A M P (some S) => by
    have ih := isSuperClassOfFrom_iff This S
    cases This with
    | none =>
      simp [isSuperClassOfFrom, ObjCInterfaceDecl.selfAndAncestors, declaresSameEntity] at ih ⊢
      exact ih
    | some K =>
      simp only [isSuperClassOfFrom, ObjCInterfaceDecl.selfAndAncestors, declaresSameEntity,
        List.mem_cons, exists_eq_or_imp, Option.some.injEq, exists_eq_left', decide_eq_true_eq,
        ite_eq_left_iff] at ih ⊢
      constructor
      · intro h
        by_cases hk : K.getName = (ObjCInterfaceDecl.mk N A M P (some S)).getName
        · exact Or.inl hk
        · exact Or.inr (ih.mp (h hk))
      · rintro (h | h)
        · intro hk; exact absurd h hk
        · intro _; exact ih.mpr h

theorem hasKVCContainerAnnotation_iff :
    ∀ I : ObjCInterfaceDecl, hasKVCContainerAnnotation I = true ↔
      ∃ A ∈ I.selfAndAncestors, "objc_kvc_container".toList ∈ A.getAnnotations
  | .mk N A M P none => by
    simp [ hasKVCContainerAnnotation, ObjCInterfaceDecl.selfAndAncestors,
      ObjCInterfaceDecl.getAnnotations]
  | .mk N A M P (some S) => by
    have ih := hasKVCContainerAnnotation_iff S
    simp only [ hasKVCContainerAnnotation, ObjCInterfaceDecl.selfAndAncestors,
      ObjCInterfaceDecl.getAnnotations, List.mem_cons, exists_eq_or_imp, List.any_eq_true,
      decide_eq_true_eq, ite_eq_left_iff] at ih ⊢
    constructor
    · intro h
      by_cases hk : ∃ x, x ∈ A ∧ x = "objc_kvc_container".toList
      · obtain ⟨x, hx, rfl⟩ := hk; exact Or.inl hx
      · exact Or.inr (ih.mp (h hk))
    · rintro (h | h)
      · intro hk; exact absurd ⟨_, h, rfl⟩ hk
      · intro _; exact ih.mpr h

theorem isKVCContainer_interfacePointer (C : KeyPathValidationConsumer) (Name : StringRef)
    (Quals : List StringRef) :
    C.isKVCContainer (.ObjCObjectPointer (.Interface Name) Quals) =
      (isSuperClassOfFrom C.NSDictionaryInterface (C.Context.InterfaceDecl Name) ||
        isSuperClassOfFrom C.NSArrayInterface (C.Context.InterfaceDecl Name) ||
        isSuperClassOfFrom C.NSSetInterface (C.Context.InterfaceDecl Name) ||
        isSuperClassOfFrom C.NSOrderedSetInterface (C.Context.InterfaceDecl Name) ||
        hasKVCContainerAnnotation (C.Context.InterfaceDecl Name)) := by
  simp only [KeyPathValidationConsumer.isKVCContainer, QualType.isObjCIdType,
    QualType.getAsObjCInterfacePointerType, ASTContext.getInterfaceDecl, isSuperClassOf]
  cases isSuperClassOfFrom C.NSDictionaryInterface (C.Context.InterfaceDecl Name) <;>
  cases isSuperClassOfFrom C.NSArrayInterface (C.Context.InterfaceDecl Name) <;>
  cases isSuperClassOfFrom C.NSSetInterface (C.Context.InterfaceDecl Name) <;>
  cases isSuperClassOfFrom C.NSOrderedSetInterface (C.Context.InterfaceDecl Name) <;>
  simp

theorem isKVCContainer_no_interface (C : KeyPathValidationConsumer) (t : QualType)
    (hid : t ≠ getObjCIdType) (hi : t.getAsObjCInterfacePointerType = none) :
    C.isKVCContainer t = false := by
  have h1 : t.isObjCIdType = false := by
    cases t with
    | ObjCObjectPointer B Q =>
      cases B with
      | Id =>
        cases Q with
        | nil => exact absurd rfl hid
        | cons q qs => rfl
      | Class => rfl
      | Interface N => rfl
    | Builtin K Td => rfl
    | Record N => rfl
  simp [KeyPathValidationConsumer.isKVCContainer, h1, hi, isSuperClassOf]

/-- C12: `isKVCContainer` is true exactly for the type `id`, for a pointer to an interface that
is, or has among its superclass ancestors, one of the four cached container interfaces, and for
a pointer to an interface that carries, or has an ancestor that carries, the annotation
`objc_kvc_container`; it is false for every other type, in particular for every type without an
interface declaration (`Class`, a protocol-qualified `id`, builtin and record types). -/
theorem C12_isKVCContainer_iff (C : KeyPathValidationConsumer) (t : QualType) :
    (C.isKVCContainer t = true ↔
      t = getObjCIdType ∨
      ∃ Name Quals, t = .ObjCObjectPointer (.Interface Name) Quals ∧
        ((∃ A ∈ (C.Context.InterfaceDecl Name).selfAndAncestors, ∃ K,
            (C.NSDictionaryInterface = some K ∨ C.NSArrayInterface = some K ∨
              C.NSSetInterface = some K ∨ C.NSOrderedSetInterface = some K) ∧
            K.getName = A.getName) ∨
          (∃ A ∈ (C.Context.InterfaceDecl Name).selfAndAncestors,
            "objc_kvc_container".toList ∈ A.getAnnotations))) ∧
    (∀ Quals, C.isKVCContainer (.ObjCObjectPointer .Class Quals) = false) ∧
    (∀ Q Quals, C.isKVCContainer (.ObjCObjectPointer .Id (Q :: Quals)) = false) ∧
    (∀ Kind Typedef, C.isKVCContainer (.Builtin Kind Typedef) = false) ∧
    (∀ Name, C.isKVCContainer (.Record Name) = false) := by
  refine ⟨?_, fun _ => isKVCContainer_no_interface C _ (by simp [getObjCIdType]) rfl,
    fun _ _ => isKVCContainer_no_interface C _ (by simp [getObjCIdType]) rfl,
    fun _ _ => isKVCContainer_no_interface C _ (by simp [getObjCIdType]) rfl,
    fun _ => isKVCContainer_no_interface C _ (by simp [getObjCIdType]) rfl⟩
  by_cases hid : t = getObjCIdType
  · subst hid
    simp [isKVCContainer_id]
  · cases hi : t.getAsObjCInterfacePointerType with
    | none =>
      rw [isKVCContainer_no_interface C t hid hi]
      simp only [Bool.false_eq_true, false_iff, not_or, not_exists, not_and]
      refine ⟨hid, ?_⟩
      intro Name Quals ht
      subst ht
      simp [QualType.getAsObjCInterfacePointerType] at hi
    | some P =>
      obtain ⟨Name, Quals, rfl⟩ : ∃ Name Quals, t = .ObjCObjectPointer (.Interface Name) Quals := by
        cases t with
        | ObjCObjectPointer B Q =>
          cases B with
          | Id => simp [QualType.getAsObjCInterfacePointerType] at hi
          | Class => simp [QualType.getAsObjCInterfacePointerType] at hi
          | Interface N => exact ⟨N, Q, rfl⟩
        | Builtin K Td => simp [QualType.getAsObjCInterfacePointerType] at hi
        | Record N => simp [QualType.getAsObjCInterfacePointerType] at hi
      rw [isKVCContainer_interfacePointer]
      simp only [Bool.or_eq_true, isSuperClassOfFrom_iff, hasKVCContainerAnnotation_iff]
      constructor
      · intro h
        refine Or.inr ⟨Name, Quals, rfl, ?_⟩
        rcases h with (((⟨A, hA, K, hK, hn⟩ | ⟨A, hA, K, hK, hn⟩) | ⟨A, hA, K, hK, hn⟩) |
          ⟨A, hA, K, hK, hn⟩) | h
        · exact Or.inl ⟨A, hA, K, Or.inl hK, hn⟩
        · exact Or.inl ⟨A, hA, K, Or.inr (Or.inl hK), hn⟩
        · exact Or.inl ⟨A, hA, K, Or.inr (Or.inr (Or.inl hK)), hn⟩
        · exact Or.inl ⟨A, hA, K, Or.inr (Or.inr (Or.inr hK)), hn⟩
        · exact Or.inr h
      · rintro (h | ⟨N2, Q2, heq, h⟩)
        · exact absurd h hid
        · simp only [QualType.ObjCObjectPointer.injEq, ObjCObjectBase.Interface.injEq] at heq
          obtain ⟨rfl, rfl⟩ := heq
          rcases h with ⟨A, hA, K, hK, hn⟩ | h
          · rcases hK with hK | hK | hK | hK
            · exact Or.inl (Or.inl (Or.inl (Or.inl ⟨A, hA, K, hK, hn⟩)))
            · exact Or.inl (Or.inl (Or.inl (Or.inr ⟨A, hA, K, hK, hn⟩)))
            · exact Or.inl (Or.inl (Or.inr ⟨A, hA, K, hK, hn⟩))
            · exact Or.inl (Or.inr ⟨A, hA, K, hK, hn⟩)
          · exact Or.inr h

theorem resolveFrom_append (C : KeyPathValidationConsumer) (ks later : List StringRef) :
    ∀ (i : Nat) (t : QualType),
      C.resolveFrom i t (ks ++ later) =
        match C.resolveFrom i t ks with
        | .ok T => C.resolveFrom (i + ks.length) T later
        | .error e => .error e := by
  induction ks with
  | nil => intro i t; simp [KeyPathValidationConsumer.resolveFrom]
  | cons k rest ih =>
    intro i t
    rw [List.cons_append, KeyPathValidationConsumer.resolveFrom,
      KeyPathValidationConsumer.resolveFrom]
    cases hc : C.CheckKeyType t k with
    | mk b T =>
      cases b
      · rfl
      · simp only []
        rw [ih (i + 1) T]
        cases C.resolveFrom (i + 1) T rest with
        | ok T2 => simp [Nat.add_assoc, Nat.add_comm 1]
        | error e => rfl

theorem resolveFrom_id (C : KeyPathValidationConsumer) (ks : List StringRef) (i : Nat) :
    C.resolveFrom i getObjCIdType ks = .ok getObjCIdType := by
  cases ks with
  | nil => rfl
  | cons k rest =>
    exact resolveFrom_of_container C (k :: rest) i getObjCIdType (isKVCContainer_id C) (by simp)

/-- C13: on the state `id`, `CheckKeyType` accepts every key and leaves the state `id`, for
every consumer and so whatever the declarations hold; the body of `KeyPathValidator.cpp` does
the same without reaching its lookup, which would go through the null interface of `id`.
Hence resolution from `id` ends in `id` for every key sequence, and a resolution that has
reached `id` after some keys is still `id` after any further keys. -/
theorem C13_id_is_absorbing (C : KeyPathValidationConsumer) (t : QualType) (k : StringRef)
    (ks later : List StringRef) :
    C.CheckKeyType getObjCIdType k = (true, getObjCIdType) ∧
    KeyPathValidator.CheckKeyType C getObjCIdType k = .ok (true, getObjCIdType) ∧
    C.resolve getObjCIdType ks = .ok getObjCIdType ∧
    (C.resolve t ks = .ok getObjCIdType → C.resolve t (ks ++ later) = .ok getObjCIdType) := by
  refine ⟨CheckKeyType_of_container C _ k (isKVCContainer_id C),
    Validator_CheckKeyType_of_container C _ k (isKVCContainer_id C),
    resolveFrom_id C ks 0, ?_⟩
  intro h
  unfold KeyPathValidationConsumer.resolve at h ⊢
  rw [resolveFrom_append, h]
  exact resolveFrom_id C later _

/-- C13 at `NSArray *`: one key gives `id`, and two more keys of any content leave it `id`. -/
theorem C13_witness :
    Example.Consumer.resolve Example.NSArrayPtr ["first".toList] = .ok getObjCIdType ∧
    Example.Consumer.resolve Example.NSArrayPtr
      (["first".toList] ++ ["no such".toList, "".toList]) = .ok getObjCIdType :=
  ⟨rfl,
    (C13_id_is_absorbing Example.Consumer Example.NSArrayPtr [] ["first".toList]
      ["no such".toList, "".toList]).2.2.2 rfl⟩

/-- C18: on the type `id`, on every container type and on every unqualified pointer to an
interface, `CheckKeyType` of `KeyPathValidator.cpp` does not fault and returns the flag and the
type that `CheckKeyType` of `KeyPathValidationConsumer.cpp` returns, for every key. -/
theorem C18_implementations_agree (C : KeyPathValidationConsumer) (t : QualType) (k : StringRef)
    (ht : t = getObjCIdType ∨ C.isKVCContainer t = true ∨
      ∃ Name, t = getObjCInterfacePointerType Name) :
    KeyPathValidator.CheckKeyType C t k = .ok (C.CheckKeyType t k) := by
  by_cases hc : C.isKVCContainer t = true
  · rw [Validator_CheckKeyType_of_container C t k hc, CheckKeyType_of_container C t k hc]
  · rcases ht with h | h | ⟨Name, rfl⟩
    · subst h; exact absurd (isKVCContainer_id C) hc
    · exact absurd h hc
    · have hc2 : C.isKVCContainer (.ObjCObjectPointer (.Interface Name) []) = false := by
        simpa [getObjCInterfacePointerType] using hc
      by_cases hk : k = "self".toList
      · subst hk
        simp [KeyPathValidator.CheckKeyType, KeyPathValidationConsumer.CheckKeyType, hc2,
          getObjCInterfacePointerType]
      · simp only [KeyPathValidator.CheckKeyType, KeyPathValidationConsumer.CheckKeyType, hc2,
          hk, if_false, Bool.false_eq_true, getObjCInterfacePointerType,
          QualType.getAsObjCInterfacePointerType, ASTContext.getInterfaceDecl,
          KeyPathValidationConsumer.ContainerDecls, QualType.getAsObjCObjectPointerType,
          List.map_nil, List.append_nil, KeyPathValidationConsumer.lookupLoop,
          KeyPathValidator.lookupAccessor, ObjCInterfaceDecl.lookupInstanceMethod]
        cases h1 : (C.Context.InterfaceDecl Name).lookupMethod (getNullarySelector k) true with
        | some m => rfl
        | none =>
          cases h2 : (C.IsSel k).bind
              (fun S => (C.Context.InterfaceDecl Name).lookupMethod S true) with
          | some m => rfl
          | none => rfl

/-- C18 at `Foo *` with the key `active`: both bodies accept it through `isActive` and give
`NSNumber *`. -/
theorem C18_witness :
    KeyPathValidator.CheckKeyType Example.Consumer Example.FooPtr "active".toList
      = .ok (true, Example.NSNumberPtr) :=
  C18_implementations_agree Example.Consumer Example.FooPtr "active".toList
    (Or.inr (Or.inr ⟨"Foo".toList, rfl⟩))

theorem lookupLoop_protocols (C : KeyPathValidationConsumer) (k : StringRef)
    (Quals : List StringRef) :
    KeyPathValidationConsumer.lookupLoop (getNullarySelector k) (C.IsSel k)
        (Quals.map (fun Q => ObjCContainerDecl.Protocol (C.Context.ProtocolDecl Q))) =
      Quals.findSome? (fun Q =>
        C.accessor (ObjCContainerDecl.Protocol (C.Context.ProtocolDecl Q)) k) := by
  induction Quals with
  | nil => rfl
  | cons Q Qs ih =>
    simp only [List.map_cons, KeyPathValidationConsumer.lookupLoop, List.findSome?,
      KeyPathValidationConsumer.accessor, ObjCContainerDecl.lookupMethod]
    cases h1 : (C.Context.ProtocolDecl Q).lookupMethod (getNullarySelector k) true with
    | some m => rfl
    | none =>
      cases h2 : (C.IsSel k).bind
          (fun S => (C.Context.ProtocolDecl Q).lookupMethod S true) with
      | some m => rfl
      | none => simpa [KeyPathValidationConsumer.accessor] using ih

theorem lookupLoop_append (Sel : Selector) (IsSel : Option Selector)
    (A B : List ObjCContainerDecl) :
    KeyPathValidationConsumer.lookupLoop Sel IsSel (A ++ B) =
      match KeyPathValidationConsumer.lookupLoop Sel IsSel A with
      | some Method => some Method
      | none => KeyPathValidationConsumer.lookupLoop Sel IsSel B := by
  induction A with
  | nil => rfl
  | cons d rest ih =>
    cases d with
    | Interface I =>
      simp only [List.cons_append, KeyPathValidationConsumer.lookupLoop]
      cases I.lookupMethod Sel true with
      | some m => rfl
      | none =>
        cases IsSel.bind (fun S => I.lookupMethod S true) with
        | some m => rfl
        | none => exact ih
    | Protocol P =>
      simp only [List.cons_append, KeyPathValidationConsumer.lookupLoop]
      cases P.lookupMethod Sel true with
      | some m => rfl
      | none =>
        cases IsSel.bind (fun S => P.lookupMethod S true) with
        | some m => rfl
        | none => exact ih

theorem lookupLoop_interface (C : KeyPathValidationConsumer) (k : StringRef)
    (I : ObjCInterfaceDecl) :
    KeyPathValidationConsumer.lookupLoop (getNullarySelector k) (C.IsSel k)
        [ObjCContainerDecl.Interface I] = C.accessor (ObjCContainerDecl.Interface I) k := by
  simp only [KeyPathValidationConsumer.lookupLoop, KeyPathValidationConsumer.accessor,
    ObjCContainerDecl.lookupMethod]
  cases I.lookupMethod (getNullarySelector k) true with
  | some m => rfl
  | none =>
    cases (C.IsSel k).bind (fun S => I.lookupMethod S true) <;> rfl

/-- C15 as stated fails on `KeyPathValidator.cpp`: `Foo<Titled> *` is not a container, `Foo`
has neither `title` nor `isTitle` and the qualifier `Titled` has `title`, yet `CheckKeyType` of
that file rejects `title` and resolution fails at index 0; the body of
`KeyPathValidationConsumer.cpp` accepts it with the `NSString *` of `Titled`. -/
theorem C15_counterexample :
    Example.Consumer.isKVCContainer Example.FooTitledPtr = false ∧
    Example.Foo.lookupMethod (getNullarySelector "title".toList) true = none ∧
    Example.Foo.lookupMethod (getNullarySelector (IsKeyString "title".toList)) true = none ∧
    Example.Consumer.accessor (ObjCContainerDecl.Interface Example.Foo) "title".toList
      = none ∧
    Example.Titled.lookupMethod (getNullarySelector "title".toList) true
      = some Example.titleMethod ∧
    Example.Consumer.accessor (ObjCContainerDecl.Protocol Example.Titled) "title".toList
      = some Example.titleMethod ∧
    KeyPathValidator.CheckKeyType Example.Consumer Example.FooTitledPtr "title".toList
      = .ok (false, Example.FooTitledPtr) ∧
    KeyPathValidator.resolve Example.Consumer Example.FooTitledPtr ["title".toList]
      = .ok (.error (0, Example.FooTitledPtr)) ∧
    Example.Consumer.CheckKeyType Example.FooTitledPtr "title".toList
      = (true, Example.NSStringPtr) :=
  ⟨by decide, by decide, by decide, by decide, by decide, by decide, rfl, rfl, by decide⟩

/-- C15 (amended): call the method a declaration yields for a key the one its lookup of the
key finds or, when that finds none, the one its lookup of the selector read through `IsKey`
finds. On a non-container object pointer type and a key other than `self`, `CheckKeyType` of
`KeyPathValidationConsumer.cpp` uses the method the declared interface yields when it yields
one; otherwise it uses the method of the first protocol qualifier, in qualifier order, that
yields one, and the key is accepted with that method's result type (boxed where numeric); it
rejects the key with the type unchanged when neither the interface nor any qualifier yields
one. `CheckKeyType` of `KeyPathValidator.cpp` on a pointer to an interface uses the method the
interface yields alone, whatever its qualifiers declare. A declaration with a method named by
the key yields that method; where the read through `IsKey` finds the characters of `is`
followed by the key with its first letter upper-cased, a declaration without a method named by
the key yields what its lookup of that name finds. -/
theorem C15_protocol_qualifiers (C : KeyPathValidationConsumer) (Base : ObjCObjectBase)
    (Quals : List StringRef) (k : StringRef)
    (ht : C.isKVCContainer (.ObjCObjectPointer Base Quals) = false)
    (hk : k ≠ "self".toList) :
    C.CheckKeyType (.ObjCObjectPointer Base Quals) k =
      (match
          (match C.Context.getInterfaceDecl (Base, Quals) with
            | some Interface => C.accessor (ObjCContainerDecl.Interface Interface) k
            | none => none) with
        | some Method => (true, C.boxResultType Method.ResultType)
        | none =>
          match Quals.findSome? (fun Q =>
              C.accessor (ObjCContainerDecl.Protocol (C.Context.ProtocolDecl Q)) k) with
          | some Method => (true, C.boxResultType Method.ResultType)
          | none => (false, .ObjCObjectPointer Base Quals)) ∧
    C.resolve (.ObjCObjectPointer Base Quals) [k] =
      (match C.CheckKeyType (.ObjCObjectPointer Base Quals) k with
        | (true, T) => .ok T
        | (false, _) => .error (0, .ObjCObjectPointer Base Quals)) ∧
    (∀ Name, Base = .Interface Name →
      KeyPathValidator.CheckKeyType C (.ObjCObjectPointer Base Quals) k =
        .ok (match C.accessor (ObjCContainerDecl.Interface (C.Context.InterfaceDecl Name)) k with
          | some Method => (true, C.boxResultType Method.ResultType)
          | none => (false, .ObjCObjectPointer Base Quals))) ∧
    (∀ (d : ObjCContainerDecl),
      (∀ Method, d.lookupMethod (getNullarySelector k) true = some Method →
        C.accessor d k = some Method) ∧
      (C.TemporaryReadable (IsKeyString k) = true →
        d.lookupMethod (getNullarySelector k) true = none →
        C.accessor d k = d.lookupMethod (getNullarySelector (IsKeyString k)) true)) := by
  have hk2 : ¬ k = "self".toList := hk
  refine ⟨?_, ?_, ?_, ?_⟩
  · simp only [KeyPathValidationConsumer.CheckKeyType, ht, hk2, if_false, Bool.false_eq_true,
      KeyPathValidationConsumer.ContainerDecls, QualType.getAsObjCObjectPointerType]
    rw [lookupLoop_append, lookupLoop_protocols]
    cases hI : C.Context.getInterfaceDecl (Base, Quals) with
    | none =>
      simp only [KeyPathValidationConsumer.lookupLoop]
      cases Quals.findSome? (fun Q =>
          C.accessor (ObjCContainerDecl.Protocol (C.Context.ProtocolDecl Q)) k) <;> rfl
    | some I =>
      simp only [lookupLoop_interface]
      cases C.accessor (ObjCContainerDecl.Interface I) k with
      | some m => rfl
      | none =>
        cases Quals.findSome? (fun Q =>
            C.accessor (ObjCContainerDecl.Protocol (C.Context.ProtocolDecl Q)) k) <;> rfl
  · simp only [KeyPathValidationConsumer.resolve, KeyPathValidationConsumer.resolveFrom]
  · intro Name hB
    subst hB
    simp only [KeyPathValidator.CheckKeyType, ht, hk2, if_false, Bool.false_eq_true,
      QualType.getAsObjCInterfacePointerType, ASTContext.getInterfaceDecl,
      KeyPathValidator.lookupAccessor, ObjCInterfaceDecl.lookupInstanceMethod,
      KeyPathValidationConsumer.accessor, ObjCContainerDecl.lookupMethod]
    cases h1 : (C.Context.InterfaceDecl Name).lookupMethod (getNullarySelector k) true with
    | some m => rfl
    | none =>
      cases h2 : (C.IsSel k).bind
          (fun S => (C.Context.InterfaceDecl Name).lookupMethod S true) with
      | some m => rfl
      | none => rfl
  · intro d
    refine ⟨?_, ?_⟩
    · intro Method h
      simp only [KeyPathValidationConsumer.accessor, h]
    · intro hread h
      simp only [KeyPathValidationConsumer.accessor, h, IsSel_of_readable C k hread,
        Option.some_bind]

/-- C15 at `Foo<Titled> *` with the key `title`, which only the qualifier `Titled` provides,
at `Page<Titled> *`, where the interface's `isTitle` is used instead of the qualifier's
`title`, at `Foo<Titled> *` with the key `name` in the body of `KeyPathValidator.cpp`, and at
the interface `Page`, which yields `isTitle` for `title` where the read finds `isTitle`. -/
theorem C15_witness :
    Example.Consumer.CheckKeyType Example.FooTitledPtr "title".toList
      = (true, Example.NSStringPtr) ∧
    Example.Consumer.CheckKeyType Example.PageTitledPtr "title".toList
      = (true, Example.NSNumberPtr) ∧
    KeyPathValidator.CheckKeyType Example.Consumer Example.FooTitledPtr "name".toList
      = .ok (true, Example.NSStringPtr) ∧
    Example.Consumer.accessor (ObjCContainerDecl.Interface Example.Page) "title".toList
      = some Example.isTitleMethod :=
  ⟨(C15_protocol_qualifiers Example.Consumer (.Interface "Foo".toList) ["Titled".toList]
      "title".toList (by decide) (by decide)).1.trans (by decide),
    (C15_protocol_qualifiers Example.Consumer (.Interface "Page".toList) ["Titled".toList]
      "title".toList (by decide) (by decide)).1.trans (by decide),
    ((C15_protocol_qualifiers Example.Consumer (.Interface "Foo".toList) ["Titled".toList]
      "name".toList (by decide) (by decide)).2.2.1 "Foo".toList rfl).trans rfl,
    (((C15_protocol_qualifiers Example.Consumer (.Interface "Page".toList) ["Titled".toList]
      "title".toList (by decide) (by decide)).2.2.2
        (ObjCContainerDecl.Interface Example.Page)).2 (by decide) (by decide)).trans
      (by decide)⟩

end KeyPathValidation

namespace FitbitFBBinderVisitor
open KeyPathValidation

theorem getElement_of_drop (All : List Expr) (s : Nat) (x : Expr) (xs : List Expr)
    (h : All.drop s = x :: xs) : getElement All s = .ok x ∧ All.drop (s + 1) = xs := by
  have hget : All[s]? = some x := by
    have := @List.getElem?_drop _ All s 0
    rw [h] at this
    simpa using this.symm
  refine ⟨by simp [getElement, hget], ?_⟩
  have := congrArg (List.drop 1) h
  simpa [List.drop_drop, Nat.add_comm] using this

theorem keyPathLoop_from (ModelExpr : Expr) (All : List Expr) :
    ∀ (L : List Expr) (s : Nat), All.drop s = L →
      forIndices (fun KeyPathIdx =>
          match getElement All KeyPathIdx with
          | .error F => .error F
          | .ok KeyPathExpr =>
            .ok [Action.emitDiagnosticsForReceiverAndKeyPath ModelExpr KeyPathExpr])
        (List.range' s L.length)
      = .ok (L.map (fun K => Action.emitDiagnosticsForReceiverAndKeyPath ModelExpr K)) := by
  intro L
  induction L with
  | nil => intro s _; rfl
  | cons x xs ih =>
    intro s h
    obtain ⟨hx, hrest⟩ := getElement_of_drop All s x xs h
    simp only [List.length_cons, List.range', forIndices, hx, ih (s + 1) hrest, List.map_cons,
      List.singleton_append]

theorem keyPathLoop_eq (ModelExpr : Expr) (KeyPathsLiteral : List Expr) :
    keyPathLoop ModelExpr KeyPathsLiteral
      = .ok (KeyPathsLiteral.map
          (fun K => Action.emitDiagnosticsForReceiverAndKeyPath ModelExpr K)) := by
  unfold keyPathLoop
  rw [List.range_eq_range']
  exact keyPathLoop_from ModelExpr KeyPathsLiteral KeyPathsLiteral 0 rfl

theorem modelLoop_body (M K : Expr) :
    (match K.IgnoreImplicit with
      | .ObjCArrayLiteral _ KeyPathsLiteral => keyPathLoop M KeyPathsLiteral
      | _ => .ok [])
    = .ok ((match K.IgnoreImplicit with
        | .ObjCArrayLiteral _ KeyPathsLiteral => KeyPathsLiteral.map (fun KeyPathExpr => (M, KeyPathExpr))
        | _ => []).map (fun P : Expr × Expr => Action.emitDiagnosticsForReceiverAndKeyPath P.1 P.2)) := by
  cases K.IgnoreImplicit with
  | ObjCArrayLiteral T Ks => simp [keyPathLoop_eq, Function.comp_def]
  | ObjCStringLiteral T S => rfl
  | ImplicitCastExpr T E => rfl
  | Other T => rfl

theorem modelLoop_from (AllM AllK : List Expr) :
    ∀ (Ms Ks : List Expr) (s : Nat), AllM.drop s = Ms → AllK.drop s = Ks →
      Ms.length = Ks.length →
      forIndices (fun ModelIdx =>
          match getElement AllM ModelIdx, getElement AllK ModelIdx with
          | .error F, _ => .error F
          | _, .error F => .error F
          | .ok ModelExpr, .ok KeyPathsExpr =>
            match KeyPathsExpr.IgnoreImplicit with
            | .ObjCArrayLiteral _ KeyPathsLiteral => keyPathLoop ModelExpr KeyPathsLiteral
            | _ => .ok [])
        (List.range' s Ms.length)
      = .ok ((pairedCalls Ms Ks).map
          (fun P : Expr × Expr => Action.emitDiagnosticsForReceiverAndKeyPath P.1 P.2)) := by
  intro Ms
  induction Ms with
  | nil => intro Ks s _ _ _; rfl
  | cons m ms ih =>
    intro Ks s hM hK hlen
    cases Ks with
    | nil => simp at hlen
    | cons k ks =>
      obtain ⟨hm, hMrest⟩ := getElement_of_drop AllM s m ms hM
      obtain ⟨hk, hKrest⟩ := getElement_of_drop AllK s k ks hK
      have hlen2 : ms.length = ks.length := by simpa using hlen
      simp only [List.length_cons, List.range', forIndices, hm, hk]
      rw [ih ks (s + 1) hMrest hKrest hlen2, modelLoop_body]
      simp [pairedCalls, List.flatMap_cons]

theorem modelLoop_eq (Models KeyPaths : List Expr) (h : Models.length = KeyPaths.length) :
    modelLoop Models KeyPaths
      = .ok ((pairedCalls Models KeyPaths).map
          (fun P : Expr × Expr => Action.emitDiagnosticsForReceiverAndKeyPath P.1 P.2)) := by
  unfold modelLoop
  rw [List.range_eq_range']
  exact modelLoop_from Models KeyPaths Models KeyPaths 0 rfl rfl h

/-- C9: a `bindToModels:keyPaths:change:` instance message with three arguments whose first
two arguments are array literals of different lengths does exactly one thing: it reports the
count-mismatch diagnostic citing the two literals. It makes no call of
`emitDiagnosticsForReceiverAndKeyPath`, whatever the arrays hold. -/
theorem C9_count_mismatch_only (E : ObjCMessageExpr) (Arg0 Arg1 Arg2 : Expr) (T0 T1 : QualType)
    (Models KeyPaths : List Expr)
    (hargs : E.Args = [Arg0, Arg1, Arg2]) (hinst : E.IsInstanceMessage = true)
    (hsel : E.Sel = BindMultipleSelector)
    (h0 : Arg0.IgnoreImplicit = .ObjCArrayLiteral T0 Models)
    (h1 : Arg1.IgnoreImplicit = .ObjCArrayLiteral T1 KeyPaths)
    (hlen : Models.length ≠ KeyPaths.length) :
    VisitObjCMessageExpr E =
      .ok [Action.ReportCountMismatch (.ObjCArrayLiteral T0 Models)
        (.ObjCArrayLiteral T1 KeyPaths)] := by
  have hsel2 : (BindMultipleSelector == BindSelector) = false := by decide
  simp [VisitObjCMessageExpr, ObjCMessageExpr.getNumArgs, ObjCMessageExpr.getArg, hargs, hinst,
    hsel, hsel2, h0, h1, hlen]

/-- C9 at a call with two models and three key-path arrays, the first of which holds a key no
model has. -/
theorem C9_witness :
    VisitObjCMessageExpr Example.bindMismatched =
      .ok [Action.ReportCountMismatch
        (.ObjCArrayLiteral Example.arrayT [Example.fooVar, Example.pageVar])
        (.ObjCArrayLiteral Example.arrayT
          [.ObjCArrayLiteral Example.arrayT [Example.str "bogus"],
            .ObjCArrayLiteral Example.arrayT [Example.str "title"],
            .ObjCArrayLiteral Example.arrayT [Example.str "name"]])] :=
  C9_count_mismatch_only Example.bindMismatched _ _ _ _ _ _ _ rfl rfl rfl rfl rfl (by decide)

/-- C10: a `bindToModels:keyPaths:change:` instance message with three arguments whose first
two arguments are array literals of equal length performs exactly the calls
`emitDiagnosticsForReceiverAndKeyPath(model i, element j of key-path array i)` of
`pairedCalls`, in increasing `(i, j)` order, and nothing else: no count-mismatch report, no
pairing across indices, and no call for an element that is not an array literal. -/
theorem C10_paired_validation (E : ObjCMessageExpr) (Arg0 Arg1 Arg2 : Expr) (T0 T1 : QualType)
    (Models KeyPaths : List Expr)
    (hargs : E.Args = [Arg0, Arg1, Arg2]) (hinst : E.IsInstanceMessage = true)
    (hsel : E.Sel = BindMultipleSelector)
    (h0 : Arg0.IgnoreImplicit = .ObjCArrayLiteral T0 Models)
    (h1 : Arg1.IgnoreImplicit = .ObjCArrayLiteral T1 KeyPaths)
    (hlen : Models.length = KeyPaths.length) :
    VisitObjCMessageExpr E =
      .ok ((pairedCalls Models KeyPaths).map
        (fun P : Expr × Expr => Action.emitDiagnosticsForReceiverAndKeyPath P.1 P.2)) := by
  have hsel2 : (BindMultipleSelector == BindSelector) = false := by decide
  simp [VisitObjCMessageExpr, ObjCMessageExpr.getNumArgs, ObjCMessageExpr.getArg, hargs, hinst,
    hsel, hsel2, h0, h1, hlen, modelLoop_eq Models KeyPaths hlen]

/-- C10 at a call with three models and three key-path elements, the middle one a string
literal: the first model is paired with its two key paths, the second with none, the third
with its one. -/
theorem C10_witness :
    VisitObjCMessageExpr Example.bindMatched =
      .ok [Action.emitDiagnosticsForReceiverAndKeyPath Example.fooVar (Example.str "name"),
        Action.emitDiagnosticsForReceiverAndKeyPath Example.fooVar (Example.str "bogus"),
        Action.emitDiagnosticsForReceiverAndKeyPath Example.fooVar (Example.str "frame")] :=
  C10_paired_validation Example.bindMatched _ _ _ _ _ _ _ rfl rfl rfl rfl rfl (by decide)

end FitbitFBBinderVisitor

namespace KeyPathValidator
open KeyPathValidation

theorem count_of_find_none (c : Char) (S : StringRef) (h : find S c = none) : count S c = 0 := by
  unfold count
  exact List.count_eq_zero.mpr (not_mem_of_find_none c S h)

theorem count_of_find_some (c : Char) (S : StringRef) :
    ∀ i, find S c = some i → count S c = count (S.drop (i + 1)) c + 1 := by
  induction S with
  | nil => intro i h; simp [find] at h
  | cons x xs ih =>
    intro i h
    unfold find at h
    by_cases hx : x = c
    · simp only [hx, if_true, Option.some.injEq] at h
      subst h
      simp [count, hx]
    · simp only [hx, if_false] at h
      cases hf : find xs c with
      | none => simp [hf] at h
      | some j =>
        simp only [hf, Option.map_some', Option.some.injEq] at h
        subst h
        have := ih j hf
        simp only [count] at this ⊢
        rw [List.count_cons_of_ne (fun hc => hx hc.symm)]
        simpa using this

theorem length_specSplit_le (n : Nat) :
    ∀ S : StringRef, S.length ≤ n → (specSplit S).length ≤ 1 + count S '.' := by
  induction n with
  | zero =>
    intro S hn
    have hS : S = [] := List.length_eq_zero.mp (Nat.le_zero.mp hn)
    subst hS
    simp [specSplit, List.splitOn, List.splitOnP_nil, List.takeWhile]
  | succ n ih =>
    intro S hn
    cases hfind : find S '.' with
    | none =>
      rw [specSplit_of_find_none S hfind]
      by_cases hS : S = [] <;> simp [hS]
    | some i =>
      rw [specSplit_of_find_some S i hfind, count_of_find_some '.' S i hfind]
      have hlt := (splitOn_of_find_some '.' S i hfind).2
      have := ih (S.drop (i + 1)) (by omega)
      by_cases hA : S.take i = []
      · simp [hA]
      · simp only [hA, if_false, List.length_cons]
        omega

theorem runBody_storeKey (L : List StringRef) :
    ∀ (Pre : List StringRef) (m : Nat), L.length ≤ m →
      runBody storeKey L (Pre ++ List.replicate m [], Pre.length)
        = .ok (Pre ++ L ++ List.replicate (m - L.length) [], Pre.length + L.length) := by
  induction L with
  | nil => intro Pre m _; simp [runBody]
  | cons k ks ih =>
    intro Pre m hm
    obtain ⟨m2, rfl⟩ : ∃ m2, m = m2 + 1 := ⟨m - 1, by simp at hm; omega⟩
    have hlt : Pre.length < (Pre ++ List.replicate (m2 + 1) ([] : StringRef)).length := by
      simp
    have hset : (Pre ++ List.replicate (m2 + 1) ([] : StringRef)).set Pre.length k
        = (Pre ++ [k]) ++ List.replicate m2 [] := by
      simp [List.replicate_succ, List.set_append]
    have hks : ks.length ≤ m2 := by simpa using hm
    have := ih (Pre ++ [k]) m2 hks
    simp only [List.length_append, List.length_singleton] at this
    simp only [runBody, storeKey, hlt, if_true, hset, this, List.length_cons]
    simp [Nat.add_assoc, Nat.add_comm 1]

theorem fillKeys_path (S : StringRef) :
    fillKeys true S
      = .ok (specSplit S ++ List.replicate (1 + count S '.' - (specSplit S).length) []) := by
  have hle := length_specSplit_le S.length S le_rfl
  have hrun := runBody_storeKey (specSplit S) [] (1 + count S '.') hle
  simp only [List.nil_append, List.length_nil, Nat.zero_add] at hrun
  simp only [fillKeys, if_true]
  rw [forEachKey_eq_runBody storeKey S.length S (S.length + 1) le_rfl (Nat.lt_succ_self _), hrun]

theorem ValueForKeyVisitor_path_form (C : KeyPathValidationConsumer) (E : ObjCMessageExpr)
    (T : QualType) (S : StringRef) (hargs : E.Args = [.ObjCStringLiteral T S])
    (hinst : E.IsInstanceMessage = true) (hsel : E.Sel = VFKPathSelector) :
    ValueForKeyVisitor.VisitObjCMessageExpr C E =
      checkKeys C true
        (specSplit S ++ List.replicate (1 + count S '.' - (specSplit S).length) [])
        (match E.ReceiverInterface with
          | some Interface => getObjCInterfacePointerType Interface
          | none => getObjCIdType) 2 := by
  have hsel2 : (VFKPathSelector != VFKSelector) = true := by decide
  simp [ValueForKeyVisitor.VisitObjCMessageExpr, ObjCMessageExpr.getNumArgs,
    ObjCMessageExpr.getArg, hargs, hinst, hsel, hsel2, fillKeys_path]

/-- C8 on the code: `valueForKeyPath:@""` on a `Foo *` receiver has no key to check, yet the
visitor checks the empty key on `Foo *` and reports it; `valueForKeyPath:@"name."` has the one
key `name`, yet the visitor goes on to check the empty key on `NSString *` and reports it. The
`bindToModel:keyPath:change:` visitor of the same file checks no key for `""` and only `name`
for `"name."`. -/
theorem C8_empty_keys_are_checked :
    specSplit "".toList = [] ∧
    ValueForKeyVisitor.VisitObjCMessageExpr Example.Consumer (Example.valueForKeyPathOnFoo "")
      = .ok ⟨[⟨Example.FooPtr, [], 2⟩], [⟨[], Example.FooPtr, 2, some 3⟩]⟩ ∧
    specSplit "name.".toList = ["name".toList] ∧
    ValueForKeyVisitor.VisitObjCMessageExpr Example.Consumer
        (Example.valueForKeyPathOnFoo "name.")
      = .ok ⟨[⟨Example.FooPtr, "name".toList, 2⟩, ⟨Example.NSStringPtr, [], 7⟩],
          [⟨[], Example.NSStringPtr, 7, some 8⟩]⟩ ∧
    FBBinderVisitor.VisitObjCMessageExpr Example.Consumer (Example.bindToModelFoo "")
      = .ok ⟨[], []⟩ ∧
    FBBinderVisitor.VisitObjCMessageExpr Example.Consumer (Example.bindToModelFoo "name.")
      = .ok ⟨[⟨Example.FooPtr, "name".toList, 2⟩], []⟩ :=
  ⟨by decide, rfl, by decide, rfl, rfl, rfl⟩


/-- C16: for every string, the split loop of `ValueForKeyVisitor` started on the buffer of
`KeyCount = 1 + count('.')` entries ends without an out-of-bounds write: it writes the keys of
`specSplit` at the indices `0, 1, ...` below their number, which is at most `KeyCount`, and the
filled buffer still has `KeyCount` entries. -/
theorem C16_split_writes_in_bounds (S : StringRef) :
    forEachKey storeKey (S.length + 1) (split S '.') (List.replicate (1 + count S '.') [], 0)
      = .ok (specSplit S ++ List.replicate (1 + count S '.' - (specSplit S).length) [],
          (specSplit S).length) ∧
    (specSplit S).length ≤ 1 + count S '.' ∧
    (∃ Keys, fillKeys true S = .ok Keys ∧ Keys.length = 1 + count S '.') := by
  have hle := length_specSplit_le S.length S le_rfl
  have hrun := runBody_storeKey (specSplit S) [] (1 + count S '.') hle
  simp only [List.nil_append, List.length_nil, Nat.zero_add] at hrun
  refine ⟨?_, hle, _, fillKeys_path S, ?_⟩
  · rw [forEachKey_eq_runBody storeKey S.length S (S.length + 1) le_rfl (Nat.lt_succ_self _),
      hrun]
  · simp only [List.length_append, List.length_replicate]
    omega

theorem Validator_CheckKeyType_without_interface (C : KeyPathValidationConsumer) (t : QualType)
    (k : StringRef) (ht : C.isKVCContainer t = false) (hk : k ≠ "self".toList)
    (hi : t.getAsObjCInterfacePointerType = none) :
    CheckKeyType C t k = .error .NullDereference := by
  have hk2 : ¬ k = "self".toList := hk
  simp only [CheckKeyType, ht, hk2, hi, if_false, lookupAccessor, Bool.false_eq_true]

/-- C14 on the code: the struct type `CGRect` and the protocol-qualified `id<Titled>` are not
containers and have no interface declaration. `CheckKeyType` of `KeyPathValidator.cpp` calls
`lookupInstanceMethod` through the null `ObjInterface` for them, so `frame.size` on a `Foo *`
faults at `size` in both visitors of that file, whereas `CheckKeyType` of
`KeyPathValidationConsumer.cpp` returns false and leaves the type as it is. -/
theorem C14_lookup_through_null_interface :
    Example.Consumer.isKVCContainer Example.CGRectType = false ∧
    Example.CGRectType.getAsObjCInterfacePointerType = none ∧
    CheckKeyType Example.Consumer Example.CGRectType "size".toList
      = .error .NullDereference ∧
    ValueForKeyVisitor.VisitObjCMessageExpr Example.Consumer
        (Example.valueForKeyPathOnFoo "frame.size") = .error .NullDereference ∧
    FBBinderVisitor.VisitObjCMessageExpr Example.Consumer (Example.bindToModelFoo "frame.size")
      = .error .NullDereference ∧
    CheckKeyType Example.Consumer Example.IdTitled "missing".toList
      = .error .NullDereference ∧
    Example.Consumer.CheckKeyType Example.CGRectType "size".toList
      = (false, Example.CGRectType) ∧
    Example.Consumer.CheckKeyType Example.IdTitled "missing".toList
      = (false, Example.IdTitled) :=
  ⟨by decide, by decide, rfl, rfl, rfl, rfl, by decide, by decide⟩

theorem CheckKeyType_false_unchanged (C : KeyPathValidationConsumer) (t T : QualType)
    (k : StringRef) (h : CheckKeyType C t k = .ok (false, T)) : T = t := by
  unfold CheckKeyType at h
  by_cases hc : C.isKVCContainer t = true
  · simp [hc] at h
  · have hc2 : C.isKVCContainer t = false := by simpa using hc
    by_cases hk : k = "self".toList
    · simp [hc2, hk] at h
    · simp only [hc2, hk, if_false, Bool.false_eq_true] at h
      generalize lookupAccessor C
        (match t.getAsObjCInterfacePointerType with
          | some ObjPointerType => C.Context.getInterfaceDecl ObjPointerType
          | none => none) k = r at h
      cases r with
      | error F => simp at h
      | ok o =>
        cases o with
        | none =>
          simp at h
          exact h.symm
        | some m => simp at h

theorem resolveFrom_succ (C : KeyPathValidationConsumer) (ks : List StringRef) :
    ∀ (j : Nat) (t : QualType),
      resolveFrom C (j + 1) t ks =
        match resolveFrom C j t ks with
        | .error F => .error F
        | .ok (.ok T) => .ok (.ok T)
        | .ok (.error (i, T)) => .ok (.error (i + 1, T)) := by
  induction ks with
  | nil => intro j t; rfl
  | cons k rest ih =>
    intro j t
    rw [resolveFrom, resolveFrom]
    cases hc : CheckKeyType C t k with
    | error F => rfl
    | ok r =>
      obtain ⟨b, T⟩ := r
      cases b
      · rfl
      · exact ih (j + 1) T

theorem checkKeys_first_failure (C : KeyPathValidationConsumer) (path : Bool)
    (Keys : List StringRef) :
    ∀ (t : QualType) (Offset : Nat),
      (∃ F, checkKeys C path Keys t Offset = .error F ∧ resolveFrom C 0 t Keys = .error F) ∨
      (∃ Log T, checkKeys C path Keys t Offset = .ok Log ∧ Log.Diags = [] ∧
        Log.Checks.map (fun c => c.Key) = Keys ∧ resolveFrom C 0 t Keys = .ok (.ok T)) ∨
      (∃ Log d i, checkKeys C path Keys t Offset = .ok Log ∧ Log.Diags = [d] ∧
        Keys[i]? = some d.Key ∧
        Log.Checks.map (fun c => c.Key) = Keys.take (i + 1) ∧
        Log.Checks.getLast? = some ⟨d.ObjType, d.Key, d.Offset⟩ ∧
        resolveFrom C 0 t (Keys.take i) = .ok (.ok d.ObjType) ∧
        CheckKeyType C d.ObjType d.Key = .ok (false, d.ObjType) ∧
        resolveFrom C 0 t Keys = .ok (.error (i, d.ObjType))) := by
  induction Keys with
  | nil =>
    intro t Offset
    exact Or.inr (Or.inl ⟨⟨[], []⟩, t, rfl, rfl, rfl, rfl⟩)
  | cons k ks ih =>
    intro t Offset
    cases hc : CheckKeyType C t k with
    | error F =>
      refine Or.inl ⟨F, ?_, ?_⟩
      · simp only [checkKeys, hc]
      · simp only [resolveFrom, hc]
    | ok r =>
      obtain ⟨b, T'⟩ := r
      cases b
      · have hT := CheckKeyType_false_unchanged C t T' k hc
        subst hT
        refine Or.inr (Or.inr ⟨⟨[⟨T', k, Offset⟩],
            [⟨k, T', Offset, if path then some (Offset + 1) else none⟩]⟩,
          ⟨k, T', Offset, if path then some (Offset + 1) else none⟩, 0,
          ?_, rfl, by simp, rfl, rfl, rfl, hc, ?_⟩)
        · simp only [checkKeys, hc, Bool.not_false, if_true]
        · simp only [resolveFrom, hc]
      · have hres : ∀ L, resolveFrom C 0 t (k :: L) =
            match resolveFrom C 0 T' L with
            | .error F => .error F
            | .ok (.ok T) => .ok (.ok T)
            | .ok (.error (i, T)) => .ok (.error (i + 1, T)) := by
          intro L
          rw [resolveFrom, hc]
          exact resolveFrom_succ C L 0 T'
        rcases ih T' (Offset + (k.length + 1)) with
          ⟨F, h1, h2⟩ | ⟨Log, T, h1, h2, h3, h4⟩ | ⟨Log, d, i, h1, h2, h3, h4, h5, h6, h7, h8⟩
        · refine Or.inl ⟨F, ?_, ?_⟩
          · simp only [checkKeys, hc, h1, Bool.not_true, Bool.false_eq_true, if_false]
          · rw [hres, h2]
        · refine Or.inr (Or.inl ⟨⟨⟨t, k, Offset⟩ :: Log.Checks, Log.Diags⟩, T, ?_, h2, ?_, ?_⟩)
          · simp only [checkKeys, hc, h1, Bool.not_true, Bool.false_eq_true, if_false]
          · simp [h3]
          · rw [hres, h4]
        · refine Or.inr (Or.inr ⟨⟨⟨t, k, Offset⟩ :: Log.Checks, Log.Diags⟩, d, i + 1,
            ?_, h2, ?_, ?_, ?_, ?_, h7, ?_⟩)
          · simp only [checkKeys, hc, h1, Bool.not_true, Bool.false_eq_true, if_false]
          · simpa using h3
          · simp [h4]
          · cases hL : Log.Checks with
            | nil => rw [hL] at h5; simp at h5
            | cons c cs =>
              rw [hL] at h5
              simp only [List.getLast?_cons_cons] at h5 ⊢
              exact h5
          · rw [List.take_succ_cons, hres, h6]
          · rw [hres, h8]

theorem runBody_bindBody (C : KeyPathValidationConsumer) (Keys : List StringRef) :
    ∀ (t : QualType) (Offset : Nat) (Log0 : VisitLog),
      (match runBody (bindBody C) Keys (t, Offset, Log0) with
        | .error F => .error F
        | .ok State => .ok State.2.2 : Except Fault VisitLog) =
      match checkKeys C true Keys t Offset with
        | .error F => .error F
        | .ok Log => .ok ⟨Log0.Checks ++ Log.Checks, Log0.Diags ++ Log.Diags⟩ := by
  induction Keys with
  | nil => intro t Offset Log0; simp [runBody, checkKeys]
  | cons k ks ih =>
    intro t Offset Log0
    cases hc : CheckKeyType C t k with
    | error F => simp only [runBody, bindBody, checkKeys, hc]
    | ok r =>
      obtain ⟨b, T'⟩ := r
      cases b
      · simp [runBody, bindBody, checkKeys, hc]
      · simp only [runBody, bindBody, checkKeys, hc, Bool.not_true, Bool.false_eq_true,
          if_false]
        rw [ih T' (Offset + (k.length + 1))
          ⟨Log0.Checks ++ [(⟨t, k, Offset⟩ : KeyCheck)], Log0.Diags⟩]
        cases checkKeys C true ks T' (Offset + (k.length + 1)) with
        | error F => rfl
        | ok Log => simp

theorem FBBinderVisitor_path_form (C : KeyPathValidationConsumer) (ModelArg Handler : Expr)
    (T : QualType) (S : StringRef) (R : Option StringRef) :
    FBBinderVisitor.VisitObjCMessageExpr C
        ⟨[ModelArg, .ObjCStringLiteral T S, Handler], true, BindSelector, R⟩ =
      checkKeys C true (specSplit S) ModelArg.IgnoreImplicit.getType 2 := by
  have h := runBody_bindBody C (specSplit S) ModelArg.IgnoreImplicit.getType 2 ⟨[], []⟩
  rw [← forEachKey_eq_runBody (bindBody C) S.length S (S.length + 1) le_rfl
    (Nat.lt_succ_self _)] at h
  have hsel : (BindSelector != BindSelector) = false := by decide
  simp only [FBBinderVisitor.VisitObjCMessageExpr, ObjCMessageExpr.getNumArgs,
    ObjCMessageExpr.getArg, List.length_cons, List.length_nil, hsel]
  simp only [List.nil_append] at h
  cases hck : checkKeys C true (specSplit S) ModelArg.IgnoreImplicit.getType 2 with
  | error F => rw [hck] at h; simpa using h
  | ok Log => rw [hck] at h; simpa using h

theorem ValueForKeyVisitor_key_form (C : KeyPathValidationConsumer) (T : QualType)
    (S : StringRef) (R : Option StringRef) :
    ValueForKeyVisitor.VisitObjCMessageExpr C ⟨[.ObjCStringLiteral T S], true, VFKSelector, R⟩ =
      checkKeys C false [S]
        (match R with
          | some Interface => getObjCInterfacePointerType Interface
          | none => getObjCIdType) 0 := by
  have hsel2 : (VFKSelector == VFKPathSelector) = false := by decide
  simp [ValueForKeyVisitor.VisitObjCMessageExpr, ObjCMessageExpr.getNumArgs,
    ObjCMessageExpr.getArg, hsel2, fillKeys]

/-- C11: the checking loop of either visitor of `KeyPathValidator.cpp`, run on a key sequence
from a starting type, ends in one of three ways. A check faults and nothing is reported. Or
every key is checked in order, every check returns true and nothing is reported. Or exactly one
diagnostic is reported: it names the key at an index `i` and the type reached through the keys
before `i`, all of which were accepted; `CheckKeyType` returns false for that key on that type;
the calls made are those for the keys `0..i` and the last call is the reported one. The
`valueForKeyPath:`, `valueForKey:` and `bindToModel:keyPath:change:` visits are this loop on
their key sequences. -/
theorem C11_one_diagnostic_at_first_failure (C : KeyPathValidationConsumer) :
    (∀ (path : Bool) (Keys : List StringRef) (t : QualType) (Offset : Nat),
      (∃ F, checkKeys C path Keys t Offset = .error F ∧ resolveFrom C 0 t Keys = .error F) ∨
      (∃ Log T, checkKeys C path Keys t Offset = .ok Log ∧ Log.Diags = [] ∧
        Log.Checks.map (fun c => c.Key) = Keys ∧ resolveFrom C 0 t Keys = .ok (.ok T)) ∨
      (∃ Log d i, checkKeys C path Keys t Offset = .ok Log ∧ Log.Diags = [d] ∧
        Keys[i]? = some d.Key ∧
        Log.Checks.map (fun c => c.Key) = Keys.take (i + 1) ∧
        Log.Checks.getLast? = some ⟨d.ObjType, d.Key, d.Offset⟩ ∧
        resolveFrom C 0 t (Keys.take i) = .ok (.ok d.ObjType) ∧
        CheckKeyType C d.ObjType d.Key = .ok (false, d.ObjType) ∧
        resolveFrom C 0 t Keys = .ok (.error (i, d.ObjType)))) ∧
    (∀ (T : QualType) (S : StringRef) (R : Option StringRef),
      ValueForKeyVisitor.VisitObjCMessageExpr C
          ⟨[.ObjCStringLiteral T S], true, VFKPathSelector, R⟩ =
        checkKeys C true
          (specSplit S ++ List.replicate (1 + count S '.' - (specSplit S).length) [])
          (match R with
            | some Interface => getObjCInterfacePointerType Interface
            | none => getObjCIdType) 2) ∧
    (∀ (T : QualType) (S : StringRef) (R : Option StringRef),
      ValueForKeyVisitor.VisitObjCMessageExpr C
          ⟨[.ObjCStringLiteral T S], true, VFKSelector, R⟩ =
        checkKeys C false [S]
          (match R with
            | some Interface => getObjCInterfacePointerType Interface
            | none => getObjCIdType) 0) ∧
    (∀ (ModelArg Handler : Expr) (T : QualType) (S : StringRef) (R : Option StringRef),
      FBBinderVisitor.VisitObjCMessageExpr C
          ⟨[ModelArg, .ObjCStringLiteral T S, Handler], true, BindSelector, R⟩ =
        checkKeys C true (specSplit S) ModelArg.IgnoreImplicit.getType 2) :=
  ⟨fun path Keys t Offset => checkKeys_first_failure C path Keys t Offset,
    fun T S _ => ValueForKeyVisitor_path_form C _ T S rfl rfl rfl,
    fun T S R => ValueForKeyVisitor_key_form C T S R,
    fun ModelArg Handler T S R => FBBinderVisitor_path_form C ModelArg Handler T S R⟩

theorem offsetOfKey_cons (Start : Nat) (k : StringRef) (ks : List StringRef) (j : Nat) :
    offsetOfKey Start (k :: ks) (j + 1) = offsetOfKey (Start + (k.length + 1)) ks j := by
  simp [offsetOfKey, Nat.add_assoc]

theorem checkKeys_offsets (C : KeyPathValidationConsumer) (path : Bool)
    (Keys : List StringRef) :
    ∀ (t : QualType) (Offset : Nat) (Log : VisitLog),
      checkKeys C path Keys t Offset = .ok Log →
      Log.Checks.length ≤ Keys.length ∧
      Log.Checks.map (fun c => c.Key) = Keys.take Log.Checks.length ∧
      Log.Checks.map (fun c => c.Offset) =
        (List.range Log.Checks.length).map (offsetOfKey Offset Keys) := by
  induction Keys with
  | nil =>
    intro t Offset Log h
    simp only [checkKeys, Except.ok.injEq] at h
    subst h
    simp
  | cons k ks ih =>
    intro t Offset Log h
    cases hc : CheckKeyType C t k with
    | error F => simp [checkKeys, hc] at h
    | ok r =>
      obtain ⟨b, T'⟩ := r
      cases b
      · simp only [checkKeys, hc, Bool.not_false, if_true, Except.ok.injEq] at h
        subst h
        simp [offsetOfKey, List.range_succ]
      · simp only [checkKeys, hc, Bool.not_true, Bool.false_eq_true, if_false] at h
        cases hr : checkKeys C path ks T' (Offset + (k.length + 1)) with
        | error F => simp [hr] at h
        | ok Log' =>
          simp only [hr, Except.ok.injEq] at h
          subst h
          obtain ⟨h1, h2, h3⟩ := ih T' (Offset + (k.length + 1)) Log' hr
          refine ⟨by simpa using h1, ?_, ?_⟩
          · simp only [List.map_cons, List.length_cons, List.take_succ_cons, h2]
          · simp only [List.map_cons, List.length_cons, h3, List.range_succ_eq_map,
              List.map_map]
            refine congrArg₂ _ (by simp [offsetOfKey]) ?_
            apply List.map_congr_left
            intro j _
            simp [offsetOfKey_cons]

theorem length_take_of_find_some (c : Char) (S : StringRef) :
    ∀ i, find S c = some i → (S.take i).length = i := by
  induction S with
  | nil => intro i h; simp [find] at h
  | cons x xs ih =>
    intro i h
    unfold find at h
    by_cases hx : x = c
    · simp only [hx, if_true, Option.some.injEq] at h
      subst h
      rfl
    · simp only [hx, if_false] at h
      cases hf : find xs c with
      | none => simp [hf] at h
      | some j =>
        simp only [hf, Option.map_some', Option.some.injEq] at h
        subst h
        simp [ih j hf]

theorem segmentStart_specSplit :
    ∀ (i : Nat) (S : StringRef), i < (specSplit S).length →
      segmentStart S i = some (offsetOfKey 0 (specSplit S) i) := by
  intro i
  induction i with
  | zero => intro S _; simp [segmentStart, offsetOfKey]
  | succ i ih =>
    intro S hi
    cases hfind : find S '.' with
    | none =>
      rw [specSplit_of_find_none S hfind] at hi
      by_cases hS : S = [] <;> simp [hS] at hi
    | some p =>
      rw [specSplit_of_find_some S p hfind] at hi ⊢
      by_cases hA : S.take p = []
      · simp [hA] at hi
      · simp only [hA, if_false, List.length_cons, Nat.add_lt_add_iff_right] at hi
        simp only [hA, if_false, segmentStart, hfind, ih (S.drop (p + 1)) hi, Option.map_some',
          offsetOfKey_cons, length_take_of_find_some '.' S p hfind]
        simp [offsetOfKey, Nat.add_comm, Nat.add_left_comm]

theorem offsetOfKey_append (Start : Nat) (Keys Pad : List StringRef) (j : Nat)
    (hj : j ≤ Keys.length) : offsetOfKey Start (Keys ++ Pad) j = offsetOfKey Start Keys j := by
  simp [offsetOfKey, List.take_append_of_le_length hj]

theorem offsetOfKey_start (Start : Nat) (Keys : List StringRef) (j : Nat) :
    offsetOfKey Start Keys j = offsetOfKey 0 Keys j + Start := by
  simp [offsetOfKey, Nat.add_comm]

theorem path_form_offsets (C : KeyPathValidationConsumer) (path : Bool) (S : StringRef)
    (Pad : List StringRef) (t : QualType) (Log : VisitLog)
    (h : checkKeys C path (specSplit S ++ Pad) t 2 = .ok Log) (j : Nat) (c : KeyCheck)
    (hj : j < (specSplit S).length) (hc : Log.Checks[j]? = some c) :
    (specSplit S)[j]? = some c.Key ∧ (segmentStart S j).map (· + 2) = some c.Offset := by
  obtain ⟨h1, h2, h3⟩ := checkKeys_offsets C path _ t 2 Log h
  have hlt : j < Log.Checks.length := by
    by_contra hn
    rw [List.getElem?_eq_none (Nat.le_of_not_lt hn)] at hc
    exact absurd hc (by simp)
  constructor
  · have := congrArg (fun L => L[j]?) h2
    simp only [List.getElem?_map, hc, Option.map_some', List.getElem?_take, hlt, if_true] at this
    rw [List.getElem?_append_left hj] at this
    exact this.symm
  · have := congrArg (fun L => L[j]?) h3
    simp only [List.getElem?_map, hc, Option.map_some', List.getElem?_range hlt] at this
    rw [segmentStart_specSplit j S hj, Option.map_some']
    rw [offsetOfKey_append 2 _ Pad j (Nat.le_of_lt hj), offsetOfKey_start] at this
    exact this.symm

/-- C17 on the code: for `valueForKeyPath:@"a..b.c"` on a receiver of type `id` the visitor
checks four keys at the offsets 2, 4, 5 and 6; the segment with index 3, `c`, starts at the
character index 5 of the string, so the offset at its check would have to be 7. The
`bindToModel:keyPath:change:` visitor checks only `a`, at offset 2. -/
theorem C17_offset_after_empty_segment :
    ValueForKeyVisitor.VisitObjCMessageExpr Example.Consumer
        (Example.valueForKeyPathOnId "a..b.c")
      = .ok ⟨[⟨getObjCIdType, "a".toList, 2⟩, ⟨getObjCIdType, [], 4⟩,
          ⟨getObjCIdType, [], 5⟩, ⟨getObjCIdType, [], 6⟩], []⟩ ∧
    segmentStart "a..b.c".toList 3 = some 5 ∧
    "a..b.c".toList.splitOn '.' = ["a".toList, [], "b".toList, "c".toList] ∧
    FBBinderVisitor.VisitObjCMessageExpr Example.Consumer (Example.bindToModelId "a..b.c")
      = .ok ⟨[⟨getObjCIdType, "a".toList, 2⟩], []⟩ :=
  ⟨rfl, by decide, by decide, rfl⟩

end KeyPathValidator
